import Mathlib

/-!
Verification development for the vkjson source generator
(`native/vulkan/scripts/vkjson_generator.py` driven by the metadata model
`native/vulkan/scripts/vk.py`).

The development shallowly embeds

* the string-manipulation helpers of the generator (identifier derivation),
* the metadata tables and dataclass definitions of `vk.py`,
* the table-driven emissions (wrapper struct definitions and the generic
  visitor traversal functions), modelled as structured values rather than
  raw C++ text,
* the generic JSON engine the generator emits verbatim (ToJsonValue /
  AsValue / ReadValue for the scalar cases the claims exercise), and
* the control skeleton of the emitted `Iterate(Visitor*, VkJsonDevice*)`
  together with the decode entry point `VkTypeFromJson`.

All definitions are executable; theorems about the concrete tables are
settled by kernel evaluation.
-/

set_option maxRecDepth 8192

namespace Vkjson

/-! ## Character and string helpers

Python string primitives used by the generator, re-implemented over
`List Char`.  All inputs in this development are ASCII, for which
`Char.toLower`/`Char.toUpper` agree with Python `str.lower`/`str.upper`.
-/

/-- Python `s.startswith(p)` on character lists. -/
def lcLeads : List Char → List Char → Bool
  | [], _ => true
  | _ :: _, [] => false
  | p :: ps, c :: cs => p == c && lcLeads ps cs

/-- Python `s.endswith(p)` on character lists. -/
def lcTrails (p s : List Char) : Bool := lcLeads p.reverse s.reverse

/-- Python `s.startswith(p)`. -/
def strLeads (p s : String) : Bool := lcLeads p.data s.data

/-- Python `s.endswith(p)`. -/
def strTrails (p s : String) : Bool := lcTrails p.data s.data

/-- Python `s[n:]`. -/
def strDrop (n : Nat) (s : String) : String := String.mk (s.data.drop n)

/-- Python `s.removeprefix(p)`. -/
def removePre (p s : String) : String :=
  if strLeads p s then strDrop p.data.length s else s

/-- Python `s.removesuffix(p)`. -/
def removeSuf (p s : String) : String :=
  if strTrails p s then String.mk (s.data.take (s.data.length - p.data.length)) else s

/-- Python `s.lower()` (ASCII). -/
def lowerStr (s : String) : String := String.mk (s.data.map Char.toLower)

/-- ASCII capital letter, the regex class `[A-Z]`. -/
def isUpperAZ (c : Char) : Bool := 65 ≤ c.toNat && c.toNat ≤ 90

/-- ASCII lower-case letter, the regex class `[a-z]`. -/
def isLowerAZ (c : Char) : Bool := 97 ≤ c.toNat && c.toNat ≤ 122

/-- Helper for `snakeUnderscores`: inserts `_` before every capital. -/
def snakeTail : List Char → List Char
  | [] => []
  | c :: cs => if isUpperAZ c then '_' :: c :: snakeTail cs else c :: snakeTail cs

/-- `re.sub(r"(?<!^)(?=[A-Z])", "_", s)`: insert an underscore before every
capital letter that is not the first character. -/
def snakeUnderscores : List Char → List Char
  | [] => []
  | c :: cs => c :: snakeTail cs

/-- Python `s.replace("2_d_", "_2d_")`: left-to-right, non-overlapping, the
replacement is not rescanned. -/
def replace2d : List Char → List Char
  | '2' :: '_' :: 'd' :: '_' :: rest => '_' :: '2' :: 'd' :: '_' :: replace2d rest
  | c :: rest => c :: replace2d rest
  | [] => []

/-- Python `s.replace("3_d_", "_3d_")`. -/
def replace3d : List Char → List Char
  | '3' :: '_' :: 'd' :: '_' :: rest => '_' :: '3' :: 'd' :: '_' :: replace3d rest
  | c :: rest => c :: replace3d rest
  | [] => []

/-- `re.sub(r"_(.)", lambda m: m.group(1).upper(), s)`: each underscore is
deleted and the character following it upper-cased (non-overlapping,
left-to-right; a trailing underscore with no following character stays). -/
def camelAny : List Char → List Char
  | [] => []
  | c :: rest =>
    if c == '_' then
      match rest with
      | [] => ['_']
      | d :: rest2 => Char.toUpper d :: camelAny rest2
    else c :: camelAny rest

/-- `re.sub(r"_([a-z])", lambda m: m.group(1).upper(), s)`: like `camelAny`
but only when a lower-case letter follows the underscore. -/
def camelLower : List Char → List Char
  | [] => []
  | c :: rest =>
    if c == '_' then
      match rest with
      | [] => ['_']
      | d :: rest2 =>
        if isLowerAZ d then Char.toUpper d :: camelLower rest2
        else '_' :: camelLower (d :: rest2)
    else c :: camelLower rest
termination_by l => l.length

/-- Python `p in s` (substring containment) on character lists. -/
def lcHasInfix (p : List Char) : List Char → Bool
  | [] => lcLeads p []
  | s@(_ :: rest) => lcLeads p s || lcHasInfix p rest

/-- Python `p in s` (substring containment). -/
def strHasInfix (p s : String) : Bool := lcHasInfix p.data s.data

/-- Python `s.replace("VkPhysicalDevice", "")`: remove every occurrence of the
pattern, left-to-right, non-overlapping, the replacement text never rescanned. -/
def removeVkPhysicalDevice : List Char → List Char
  | 'V' :: 'k' :: 'P' :: 'h' :: 'y' :: 's' :: 'i' :: 'c' :: 'a' :: 'l' :: 'D' :: 'e' :: 'v' :: 'i' :: 'c' :: 'e' :: rest =>
    removeVkPhysicalDevice rest
  | c :: rest => c :: removeVkPhysicalDevice rest
  | [] => []

/-- First-position association-list lookup (Python `dict[...]` access on the
literal tables, which have distinct keys). -/
def alookup {α : Type} (k : String) : List (String × α) → Option α
  | [] => none
  | (a, b) :: rest => if a == k then some b else alookup k rest

/-! ## Identifier derivation (vkjson_generator.py lines 56-126) -/

/-- `get_vkjson_struct_name`: wrapper type name from a Vulkan extension name.
The prefix map `VK_KHR → VkJsonKHR, VK_EXT → VkJsonExt, VK_IMG → VkJsonIMG`
is tried in insertion order; an unrecognized prefix falls back to
`"VkJsonExt" + extension_name`; then underscores are camel-cased away. -/
def get_vkjson_struct_name (extensionName : String) : String :=
  let s :=
    if strLeads "VK_KHR" extensionName then "VkJsonKHR" ++ strDrop 6 extensionName
    else if strLeads "VK_EXT" extensionName then "VkJsonExt" ++ strDrop 6 extensionName
    else if strLeads "VK_IMG" extensionName then "VkJsonIMG" ++ strDrop 6 extensionName
    else "VkJsonExt" ++ extensionName
  String.mk (camelAny s.data)

/-- `get_vkjson_struct_variable_name`: wrapper instance name from a Vulkan
extension name.  A known prefix `VK_KHR_/VK_EXT_/VK_IMG_` is replaced by its
lowercase tag and the remainder kept verbatim; otherwise the whole name is
lower-cased. -/
def get_vkjson_struct_variable_name (extensionName : String) : String :=
  if strLeads "VK_KHR_" extensionName then "khr_" ++ strDrop 7 extensionName
  else if strLeads "VK_EXT_" extensionName then "ext_" ++ strDrop 7 extensionName
  else if strLeads "VK_IMG_" extensionName then "img_" ++ strDrop 7 extensionName
  else lowerStr extensionName

/-- The final special-case lookup of `get_struct_name` (its `special_cases`
dict): exact-match correction of four derived names, identity otherwise. -/
def special_cases (v : String) : String :=
  if v == "8_bit_storage_features_khr" then "bit8_storage_features_khr"
  else if v == "memory_properties" then "memory"
  else if v == "16_bit_storage_features" then "bit16_storage_features"
  else if v == "i_d_properties" then "id_properties"
  else v

/-- `get_struct_name` up to (but excluding) the `special_cases` lookup:
strip the `VkPhysicalDevice` prefix and one of the `KHR/EXT/IMG` suffixes
(tried in that order), CamelCase → snake_case, lower, apply the `2_d_`/`3_d_`
fixups, and re-append the lower-cased suffix tag when one was stripped. -/
def derive_variable_name (structName : String) : String :=
  let base := removeSuf "IMG" (removeSuf "EXT" (removeSuf "KHR"
    (removePre "VkPhysicalDevice" structName)))
  let v := lowerStr (String.mk (snakeUnderscores base.data))
  let v := String.mk (replace3d (replace2d v.data))
  if strTrails "KHR" structName then v ++ "_khr"
  else if strTrails "EXT" structName then v ++ "_ext"
  else if strTrails "IMG" structName then v ++ "_img"
  else v

/-- `get_struct_name`: field/member identifier derivation from a capability
structure name. -/
def get_struct_name (structName : String) : String :=
  special_cases (derive_variable_name structName)

/-! ## The metadata model (vk.py), transcribed verbatim -/

/-- A field of a capability structure: its name and the literal type
annotation text from the metadata model (vk.py). The generator consumes
only the name and whether the annotation is a variable-length `List[...]`. -/
structure SField where
  fname : String
  fty : String
deriving DecidableEq, Repr

/-- A capability structure of the metadata model: the dataclass name and its
ordered field list, transcribed from vk.py. -/
structure StructDef where
  sname : String
  sfields : List SField
deriving DecidableEq, Repr

/-- vk.py dataclass ConformanceVersion. -/
def ConformanceVersion : StructDef :=
  StructDef.mk "ConformanceVersion"
   [SField.mk "major" "uint8_t",
    SField.mk "minor" "uint8_t",
    SField.mk "subminor" "uint8_t",
    SField.mk "patch" "uint8_t"]

/-- vk.py dataclass VkExtent3D. -/
def VkExtent3D : StructDef :=
  StructDef.mk "VkExtent3D"
   [SField.mk "width" "uint32_t",
    SField.mk "height" "uint32_t",
    SField.mk "depth" "uint32_t"]

/-- vk.py dataclass VkPhysicalDeviceLimits. -/
def VkPhysicalDeviceLimits : StructDef :=
  StructDef.mk "VkPhysicalDeviceLimits"
   [SField.mk "maxImageDimension1D" "uint32_t",
    SField.mk "maxImageDimension2D" "uint32_t",
    SField.mk "maxImageDimension3D" "uint32_t",
    SField.mk "maxImageDimensionCube" "uint32_t",
    SField.mk "maxImageArrayLayers" "uint32_t",
    SField.mk "maxTexelBufferElements" "uint32_t",
    SField.mk "maxUniformBufferRange" "uint32_t",
    SField.mk "maxStorageBufferRange" "uint32_t",
    SField.mk "maxPushConstantsSize" "uint32_t",
    SField.mk "maxMemoryAllocationCount" "uint32_t",
    SField.mk "maxSamplerAllocationCount" "uint32_t",
    SField.mk "bufferImageGranularity" "VkDeviceSize",
    SField.mk "sparseAddressSpaceSize" "VkDeviceSize",
    SField.mk "maxBoundDescriptorSets" "uint32_t",
    SField.mk "maxPerStageDescriptorSamplers" "uint32_t",
    SField.mk "maxPerStageDescriptorUniformBuffers" "uint32_t",
    SField.mk "maxPerStageDescriptorStorageBuffers" "uint32_t",
    SField.mk "maxPerStageDescriptorSampledImages" "uint32_t",
    SField.mk "maxPerStageDescriptorStorageImages" "uint32_t",
    SField.mk "maxPerStageDescriptorInputAttachments" "uint32_t",
    SField.mk "maxPerStageResources" "uint32_t",
    SField.mk "maxDescriptorSetSamplers" "uint32_t",
    SField.mk "maxDescriptorSetUniformBuffers" "uint32_t",
    SField.mk "maxDescriptorSetUniformBuffersDynamic" "uint32_t",
    SField.mk "maxDescriptorSetStorageBuffers" "uint32_t",
    SField.mk "maxDescriptorSetStorageBuffersDynamic" "uint32_t",
    SField.mk "maxDescriptorSetSampledImages" "uint32_t",
    SField.mk "maxDescriptorSetStorageImages" "uint32_t",
    SField.mk "maxDescriptorSetInputAttachments" "uint32_t",
    SField.mk "maxVertexInputAttributes" "uint32_t",
    SField.mk "maxVertexInputBindings" "uint32_t",
    SField.mk "maxVertexInputAttributeOffset" "uint32_t",
    SField.mk "maxVertexInputBindingStride" "uint32_t",
    SField.mk "maxVertexOutputComponents" "uint32_t",
    SField.mk "maxTessellationGenerationLevel" "uint32_t",
    SField.mk "maxTessellationPatchSize" "uint32_t",
    SField.mk "maxTessellationControlPerVertexInputComponents" "uint32_t",
    SField.mk "maxTessellationControlPerVertexOutputComponents" "uint32_t",
    SField.mk "maxTessellationControlPerPatchOutputComponents" "uint32_t",
    SField.mk "maxTessellationControlTotalOutputComponents" "uint32_t",
    SField.mk "maxTessellationEvaluationInputComponents" "uint32_t",
    SField.mk "maxTessellationEvaluationOutputComponents" "uint32_t",
    SField.mk "maxGeometryShaderInvocations" "uint32_t",
    SField.mk "maxGeometryInputComponents" "uint32_t",
    SField.mk "maxGeometryOutputComponents" "uint32_t",
    SField.mk "maxGeometryOutputVertices" "uint32_t",
    SField.mk "maxGeometryTotalOutputComponents" "uint32_t",
    SField.mk "maxFragmentInputComponents" "uint32_t",
    SField.mk "maxFragmentOutputAttachments" "uint32_t",
    SField.mk "maxFragmentDualSrcAttachments" "uint32_t",
    SField.mk "maxFragmentCombinedOutputResources" "uint32_t",
    SField.mk "maxComputeSharedMemorySize" "uint32_t",
    SField.mk "maxComputeWorkGroupCount" "uint32_t*3",
    SField.mk "maxComputeWorkGroupInvocations" "uint32_t",
    SField.mk "maxComputeWorkGroupSize" "uint32_t*3",
    SField.mk "subPixelPrecisionBits" "uint32_t",
    SField.mk "subTexelPrecisionBits" "uint32_t",
    SField.mk "mipmapPrecisionBits" "uint32_t",
    SField.mk "maxDrawIndexedIndexValue" "uint32_t",
    SField.mk "maxDrawIndirectCount" "uint32_t",
    SField.mk "maxSamplerLodBias" "float",
    SField.mk "maxSamplerAnisotropy" "float",
    SField.mk "maxViewports" "uint32_t",
    SField.mk "maxViewportDimensions" "uint32_t*2",
    SField.mk "viewportBoundsRange" "float_t*2",
    SField.mk "viewportSubPixelBits" "uint32_t",
    SField.mk "minMemoryMapAlignment" "size_t",
    SField.mk "minTexelBufferOffsetAlignment" "VkDeviceSize",
    SField.mk "minUniformBufferOffsetAlignment" "VkDeviceSize",
    SField.mk "minStorageBufferOffsetAlignment" "VkDeviceSize",
    SField.mk "minTexelOffset" "int32_t",
    SField.mk "maxTexelOffset" "uint32_t",
    SField.mk "minTexelGatherOffset" "int32_t",
    SField.mk "maxTexelGatherOffset" "uint32_t",
    SField.mk "minInterpolationOffset" "float",
    SField.mk "maxInterpolationOffset" "float",
    SField.mk "subPixelInterpolationOffsetBits" "uint32_t",
    SField.mk "maxFramebufferWidth" "uint32_t",
    SField.mk "maxFramebufferHeight" "uint32_t",
    SField.mk "maxFramebufferLayers" "uint32_t",
    SField.mk "framebufferColorSampleCounts" "VkSampleCountFlags",
    SField.mk "framebufferDepthSampleCounts" "VkSampleCountFlags",
    SField.mk "framebufferStencilSampleCounts" "VkSampleCountFlags",
    SField.mk "framebufferNoAttachmentsSampleCounts" "VkSampleCountFlags",
    SField.mk "maxColorAttachments" "uint32_t",
    SField.mk "sampledImageColorSampleCounts" "VkSampleCountFlags",
    SField.mk "sampledImageIntegerSampleCounts" "VkSampleCountFlags",
    SField.mk "sampledImageDepthSampleCounts" "VkSampleCountFlags",
    SField.mk "sampledImageStencilSampleCounts" "VkSampleCountFlags",
    SField.mk "storageImageSampleCounts" "VkSampleCountFlags",
    SField.mk "maxSampleMaskWords" "uint32_t",
    SField.mk "timestampComputeAndGraphics" "VkBool32",
    SField.mk "timestampPeriod" "float",
    SField.mk "maxClipDistances" "uint32_t",
    SField.mk "maxCullDistances" "uint32_t",
    SField.mk "maxCombinedClipAndCullDistances" "uint32_t",
    SField.mk "discreteQueuePriorities" "uint32_t",
    SField.mk "pointSizeRange" "float_t*2",
    SField.mk "lineWidthRange" "float_t*2",
    SField.mk "pointSizeGranularity" "float",
    SField.mk "lineWidthGranularity" "float",
    SField.mk "strictLines" "VkBool32",
    SField.mk "standardSampleLocations" "VkBool32",
    SField.mk "optimalBufferCopyOffsetAlignment" "VkDeviceSize",
    SField.mk "optimalBufferCopyRowPitchAlignment" "VkDeviceSize",
    SField.mk "nonCoherentAtomSize" "VkDeviceSize"]

/-- vk.py dataclass VkPhysicalDeviceShaderDrawParameterFeatures. -/
def VkPhysicalDeviceShaderDrawParameterFeatures : StructDef :=
  StructDef.mk "VkPhysicalDeviceShaderDrawParameterFeatures"
   [SField.mk "shaderDrawParameters" "VkBool32"]

/-- vk.py dataclass VkExtensionProperties. -/
def VkExtensionProperties : StructDef :=
  StructDef.mk "VkExtensionProperties"
   [SField.mk "extensionName" "str",
    SField.mk "specVersion" "uint32_t"]

/-- vk.py dataclass VkFormatProperties. -/
def VkFormatProperties : StructDef :=
  StructDef.mk "VkFormatProperties"
   [SField.mk "linearTilingFeatures" "VkFormatFeatureFlags",
    SField.mk "optimalTilingFeatures" "VkFormatFeatureFlags",
    SField.mk "bufferFeatures" "VkFormatFeatureFlags"]

/-- vk.py dataclass VkLayerProperties. -/
def VkLayerProperties : StructDef :=
  StructDef.mk "VkLayerProperties"
   [SField.mk "layerName" "str",
    SField.mk "specVersion" "uint32_t",
    SField.mk "implementationVersion" "uint32_t",
    SField.mk "description" "str"]

/-- vk.py dataclass VkQueueFamilyProperties. -/
def VkQueueFamilyProperties : StructDef :=
  StructDef.mk "VkQueueFamilyProperties"
   [SField.mk "queueFlags" "VkQueueFlags",
    SField.mk "queueCount" "uint32_t",
    SField.mk "timestampValidBits" "uint32_t",
    SField.mk "minImageTransferGranularity" "VkExtent3D"]

/-- vk.py dataclass VkPhysicalDeviceSparseProperties. -/
def VkPhysicalDeviceSparseProperties : StructDef :=
  StructDef.mk "VkPhysicalDeviceSparseProperties"
   [SField.mk "residencyStandard2DBlockShape" "VkBool32",
    SField.mk "residencyStandard2DMultisampleBlockShape" "VkBool32",
    SField.mk "residencyStandard3DBlockShape" "VkBool32",
    SField.mk "residencyAlignedMipSize" "VkBool32",
    SField.mk "residencyNonResidentStrict" "VkBool32"]

/-- vk.py dataclass VkImageFormatProperties. -/
def VkImageFormatProperties : StructDef :=
  StructDef.mk "VkImageFormatProperties"
   [SField.mk "maxExtent" "VkExtent3D",
    SField.mk "maxMipLevels" "uint32_t",
    SField.mk "maxArrayLayers" "uint32_t",
    SField.mk "sampleCounts" "VkSampleCountFlags",
    SField.mk "maxResourceSize" "VkDeviceSize"]

/-- vk.py dataclass VkPhysicalDeviceSamplerYcbcrConversionFeatures. -/
def VkPhysicalDeviceSamplerYcbcrConversionFeatures : StructDef :=
  StructDef.mk "VkPhysicalDeviceSamplerYcbcrConversionFeatures"
   [SField.mk "samplerYcbcrConversion" "VkBool32"]

/-- vk.py dataclass VkPhysicalDeviceIDProperties. -/
def VkPhysicalDeviceIDProperties : StructDef :=
  StructDef.mk "VkPhysicalDeviceIDProperties"
   [SField.mk "deviceUUID" "uint8_t*VK_UUID_SIZE",
    SField.mk "driverUUID" "uint8_t*VK_UUID_SIZE",
    SField.mk "deviceLUID" "uint8_t*VK_LUID_SIZE",
    SField.mk "deviceNodeMask" "uint32_t",
    SField.mk "deviceLUIDValid" "VkBool32"]

/-- vk.py dataclass VkPhysicalDeviceMaintenance3Properties. -/
def VkPhysicalDeviceMaintenance3Properties : StructDef :=
  StructDef.mk "VkPhysicalDeviceMaintenance3Properties"
   [SField.mk "maxPerSetDescriptors" "uint32_t",
    SField.mk "maxMemoryAllocationSize" "VkDeviceSize"]

/-- vk.py dataclass VkPhysicalDevice16BitStorageFeatures. -/
def VkPhysicalDevice16BitStorageFeatures : StructDef :=
  StructDef.mk "VkPhysicalDevice16BitStorageFeatures"
   [SField.mk "storageBuffer16BitAccess" "VkBool32",
    SField.mk "uniformAndStorageBuffer16BitAccess" "VkBool32",
    SField.mk "storagePushConstant16" "VkBool32",
    SField.mk "storageInputOutput16" "VkBool32"]

/-- vk.py dataclass VkPhysicalDeviceMultiviewFeatures. -/
def VkPhysicalDeviceMultiviewFeatures : StructDef :=
  StructDef.mk "VkPhysicalDeviceMultiviewFeatures"
   [SField.mk "multiview" "VkBool32",
    SField.mk "multiviewGeometryShader" "VkBool32",
    SField.mk "multiviewTessellationShader" "VkBool32"]

/-- vk.py dataclass VkPhysicalDeviceSubgroupProperties. -/
def VkPhysicalDeviceSubgroupProperties : StructDef :=
  StructDef.mk "VkPhysicalDeviceSubgroupProperties"
   [SField.mk "subgroupSize" "uint32_t",
    SField.mk "supportedStages" "VkShaderStageFlags",
    SField.mk "supportedOperations" "VkSubgroupFeatureFlags",
    SField.mk "quadOperationsInAllStages" "VkBool32"]

/-- vk.py dataclass VkPhysicalDevicePointClippingProperties. -/
def VkPhysicalDevicePointClippingProperties : StructDef :=
  StructDef.mk "VkPhysicalDevicePointClippingProperties"
   [SField.mk "pointClippingBehavior" "VkPointClippingBehavior"]

/-- vk.py dataclass VkPhysicalDeviceMultiviewProperties. -/
def VkPhysicalDeviceMultiviewProperties : StructDef :=
  StructDef.mk "VkPhysicalDeviceMultiviewProperties"
   [SField.mk "maxMultiviewViewCount" "uint32_t",
    SField.mk "maxMultiviewInstanceIndex" "uint32_t"]

/-- vk.py dataclass VkMemoryType. -/
def VkMemoryType : StructDef :=
  StructDef.mk "VkMemoryType"
   [SField.mk "propertyFlags" "VkMemoryPropertyFlags",
    SField.mk "heapIndex" "uint32_t"]

/-- vk.py dataclass VkMemoryHeap. -/
def VkMemoryHeap : StructDef :=
  StructDef.mk "VkMemoryHeap"
   [SField.mk "size" "VkDeviceSize",
    SField.mk "flags" "VkMemoryHeapFlags"]

/-- vk.py dataclass VkPhysicalDeviceMemoryProperties. -/
def VkPhysicalDeviceMemoryProperties : StructDef :=
  StructDef.mk "VkPhysicalDeviceMemoryProperties"
   [SField.mk "memoryTypeCount" "uint32_t",
    SField.mk "memoryTypes" "List[VkMemoryType]",
    SField.mk "memoryHeapCount" "uint32_t",
    SField.mk "memoryHeaps" "List[VkMemoryHeap]"]

/-- vk.py dataclass VkPhysicalDeviceProperties. -/
def VkPhysicalDeviceProperties : StructDef :=
  StructDef.mk "VkPhysicalDeviceProperties"
   [SField.mk "apiVersion" "uint32_t",
    SField.mk "driverVersion" "uint32_t",
    SField.mk "vendorID" "uint32_t",
    SField.mk "deviceID" "uint32_t",
    SField.mk "deviceType" "VkPhysicalDeviceType",
    SField.mk "deviceName" "str",
    SField.mk "pipelineCacheUUID" "uint8_t",
    SField.mk "limits" "VkPhysicalDeviceLimits",
    SField.mk "sparseProperties" "VkPhysicalDeviceSparseProperties"]

/-- vk.py dataclass VkPhysicalDeviceFeatures. -/
def VkPhysicalDeviceFeatures : StructDef :=
  StructDef.mk "VkPhysicalDeviceFeatures"
   [SField.mk "robustBufferAccess" "VkBool32",
    SField.mk "fullDrawIndexUint32" "VkBool32",
    SField.mk "imageCubeArray" "VkBool32",
    SField.mk "independentBlend" "VkBool32",
    SField.mk "geometryShader" "VkBool32",
    SField.mk "tessellationShader" "VkBool32",
    SField.mk "sampleRateShading" "VkBool32",
    SField.mk "dualSrcBlend" "VkBool32",
    SField.mk "logicOp" "VkBool32",
    SField.mk "multiDrawIndirect" "VkBool32",
    SField.mk "drawIndirectFirstInstance" "VkBool32",
    SField.mk "depthClamp" "VkBool32",
    SField.mk "depthBiasClamp" "VkBool32",
    SField.mk "fillModeNonSolid" "VkBool32",
    SField.mk "depthBounds" "VkBool32",
    SField.mk "wideLines" "VkBool32",
    SField.mk "largePoints" "VkBool32",
    SField.mk "alphaToOne" "VkBool32",
    SField.mk "multiViewport" "VkBool32",
    SField.mk "samplerAnisotropy" "VkBool32",
    SField.mk "textureCompressionETC2" "VkBool32",
    SField.mk "textureCompressionASTC_LDR" "VkBool32",
    SField.mk "textureCompressionBC" "VkBool32",
    SField.mk "occlusionQueryPrecise" "VkBool32",
    SField.mk "pipelineStatisticsQuery" "VkBool32",
    SField.mk "vertexPipelineStoresAndAtomics" "VkBool32",
    SField.mk "fragmentStoresAndAtomics" "VkBool32",
    SField.mk "shaderTessellationAndGeometryPointSize" "VkBool32",
    SField.mk "shaderImageGatherExtended" "VkBool32",
    SField.mk "shaderStorageImageExtendedFormats" "VkBool32",
    SField.mk "shaderStorageImageMultisample" "VkBool32",
    SField.mk "shaderStorageImageReadWithoutFormat" "VkBool32",
    SField.mk "shaderStorageImageWriteWithoutFormat" "VkBool32",
    SField.mk "shaderUniformBufferArrayDynamicIndexing" "VkBool32",
    SField.mk "shaderSampledImageArrayDynamicIndexing" "VkBool32",
    SField.mk "shaderStorageBufferArrayDynamicIndexing" "VkBool32",
    SField.mk "shaderStorageImageArrayDynamicIndexing" "VkBool32",
    SField.mk "shaderClipDistance" "VkBool32",
    SField.mk "shaderCullDistance" "VkBool32",
    SField.mk "shaderFloat64" "VkBool32",
    SField.mk "shaderInt64" "VkBool32",
    SField.mk "shaderInt16" "VkBool32",
    SField.mk "shaderResourceResidency" "VkBool32",
    SField.mk "shaderResourceMinLod" "VkBool32",
    SField.mk "sparseBinding" "VkBool32",
    SField.mk "sparseResidencyBuffer" "VkBool32",
    SField.mk "sparseResidencyImage2D" "VkBool32",
    SField.mk "sparseResidencyImage3D" "VkBool32",
    SField.mk "sparseResidency2Samples" "VkBool32",
    SField.mk "sparseResidency4Samples" "VkBool32",
    SField.mk "sparseResidency8Samples" "VkBool32",
    SField.mk "sparseResidency16Samples" "VkBool32",
    SField.mk "sparseResidencyAliased" "VkBool32",
    SField.mk "variableMultisampleRate" "VkBool32",
    SField.mk "inheritedQueries" "VkBool32"]

/-- vk.py dataclass VkPhysicalDeviceShaderFloat16Int8Features. -/
def VkPhysicalDeviceShaderFloat16Int8Features : StructDef :=
  StructDef.mk "VkPhysicalDeviceShaderFloat16Int8Features"
   [SField.mk "shaderFloat16" "VkBool32",
    SField.mk "shaderInt8" "VkBool32"]

/-- vk.py dataclass VkPhysicalDeviceProtectedMemoryFeatures. -/
def VkPhysicalDeviceProtectedMemoryFeatures : StructDef :=
  StructDef.mk "VkPhysicalDeviceProtectedMemoryFeatures"
   [SField.mk "protectedMemory" "VkBool32"]

/-- vk.py dataclass VkPhysicalDeviceVariablePointersFeatures. -/
def VkPhysicalDeviceVariablePointersFeatures : StructDef :=
  StructDef.mk "VkPhysicalDeviceVariablePointersFeatures"
   [SField.mk "variablePointersStorageBuffer" "VkBool32",
    SField.mk "variablePointers" "VkBool32"]

/-- vk.py dataclass VkPhysicalDeviceImage2DViewOf3DFeaturesEXT. -/
def VkPhysicalDeviceImage2DViewOf3DFeaturesEXT : StructDef :=
  StructDef.mk "VkPhysicalDeviceImage2DViewOf3DFeaturesEXT"
   [SField.mk "image2DViewOf3D" "VkBool32",
    SField.mk "sampler2DViewOf3D" "VkBool32"]

/-- vk.py dataclass VkPhysicalDeviceCustomBorderColorFeaturesEXT. -/
def VkPhysicalDeviceCustomBorderColorFeaturesEXT : StructDef :=
  StructDef.mk "VkPhysicalDeviceCustomBorderColorFeaturesEXT"
   [SField.mk "customBorderColors" "VkBool32",
    SField.mk "customBorderColorWithoutFormat" "VkBool32"]

/-- vk.py dataclass VkPhysicalDevicePrimitiveTopologyListRestartFeaturesEXT. -/
def VkPhysicalDevicePrimitiveTopologyListRestartFeaturesEXT : StructDef :=
  StructDef.mk "VkPhysicalDevicePrimitiveTopologyListRestartFeaturesEXT"
   [SField.mk "primitiveTopologyListRestart" "VkBool32",
    SField.mk "primitiveTopologyPatchListRestart" "VkBool32"]

/-- vk.py dataclass VkPhysicalDeviceProvokingVertexFeaturesEXT. -/
def VkPhysicalDeviceProvokingVertexFeaturesEXT : StructDef :=
  StructDef.mk "VkPhysicalDeviceProvokingVertexFeaturesEXT"
   [SField.mk "provokingVertexLast" "VkBool32",
    SField.mk "transformFeedbackPreservesProvokingVertex" "VkBool32"]

/-- vk.py dataclass VkPhysicalDeviceIndexTypeUint8Features. -/
def VkPhysicalDeviceIndexTypeUint8Features : StructDef :=
  StructDef.mk "VkPhysicalDeviceIndexTypeUint8Features"
   [SField.mk "indexTypeUint8" "VkBool32"]

/-- vk.py dataclass VkPhysicalDeviceVertexAttributeDivisorFeatures. -/
def VkPhysicalDeviceVertexAttributeDivisorFeatures : StructDef :=
  StructDef.mk "VkPhysicalDeviceVertexAttributeDivisorFeatures"
   [SField.mk "vertexAttributeInstanceRateDivisor" "VkBool32",
    SField.mk "vertexAttributeInstanceRateZeroDivisor" "VkBool32"]

/-- vk.py dataclass VkPhysicalDeviceTransformFeedbackFeaturesEXT. -/
def VkPhysicalDeviceTransformFeedbackFeaturesEXT : StructDef :=
  StructDef.mk "VkPhysicalDeviceTransformFeedbackFeaturesEXT"
   [SField.mk "transformFeedback" "VkBool32",
    SField.mk "geometryStreams" "VkBool32"]

/-- vk.py dataclass VkPhysicalDeviceShaderSubgroupUniformControlFlowFeaturesKHR. -/
def VkPhysicalDeviceShaderSubgroupUniformControlFlowFeaturesKHR : StructDef :=
  StructDef.mk "VkPhysicalDeviceShaderSubgroupUniformControlFlowFeaturesKHR"
   [SField.mk "shaderSubgroupUniformControlFlow" "VkBool32"]

/-- vk.py dataclass VkPhysicalDeviceShaderSubgroupExtendedTypesFeatures. -/
def VkPhysicalDeviceShaderSubgroupExtendedTypesFeatures : StructDef :=
  StructDef.mk "VkPhysicalDeviceShaderSubgroupExtendedTypesFeatures"
   [SField.mk "shaderSubgroupExtendedTypes" "VkBool32"]

/-- vk.py dataclass VkPhysicalDevice8BitStorageFeatures. -/
def VkPhysicalDevice8BitStorageFeatures : StructDef :=
  StructDef.mk "VkPhysicalDevice8BitStorageFeatures"
   [SField.mk "storageBuffer8BitAccess" "VkBool32",
    SField.mk "uniformAndStorageBuffer8BitAccess" "VkBool32",
    SField.mk "storagePushConstant8" "VkBool32"]

/-- vk.py dataclass VkPhysicalDeviceShaderIntegerDotProductFeatures. -/
def VkPhysicalDeviceShaderIntegerDotProductFeatures : StructDef :=
  StructDef.mk "VkPhysicalDeviceShaderIntegerDotProductFeatures"
   [SField.mk "shaderIntegerDotProduct" "VkBool32"]

/-- vk.py dataclass VkPhysicalDeviceRelaxedLineRasterizationFeaturesIMG. -/
def VkPhysicalDeviceRelaxedLineRasterizationFeaturesIMG : StructDef :=
  StructDef.mk "VkPhysicalDeviceRelaxedLineRasterizationFeaturesIMG"
   [SField.mk "relaxedLineRasterization" "VkBool32"]

/-- vk.py dataclass VkPhysicalDeviceLineRasterizationFeatures. -/
def VkPhysicalDeviceLineRasterizationFeatures : StructDef :=
  StructDef.mk "VkPhysicalDeviceLineRasterizationFeatures"
   [SField.mk "rectangularLines" "VkBool32",
    SField.mk "bresenhamLines" "VkBool32",
    SField.mk "smoothLines" "VkBool32",
    SField.mk "stippledRectangularLines" "VkBool32",
    SField.mk "stippledBresenhamLines" "VkBool32",
    SField.mk "stippledSmoothLines" "VkBool32"]

/-- vk.py dataclass VkPhysicalDevicePrimitivesGeneratedQueryFeaturesEXT. -/
def VkPhysicalDevicePrimitivesGeneratedQueryFeaturesEXT : StructDef :=
  StructDef.mk "VkPhysicalDevicePrimitivesGeneratedQueryFeaturesEXT"
   [SField.mk "primitivesGeneratedQuery" "VkBool32",
    SField.mk "primitivesGeneratedQueryWithRasterizerDiscard" "VkBool32",
    SField.mk "primitivesGeneratedQueryWithNonZeroStreams" "VkBool32"]

/-- vk.py dataclass VkPhysicalDeviceFloatControlsProperties. -/
def VkPhysicalDeviceFloatControlsProperties : StructDef :=
  StructDef.mk "VkPhysicalDeviceFloatControlsProperties"
   [SField.mk "denormBehaviorIndependence" "VkShaderFloatControlsIndependence",
    SField.mk "roundingModeIndependence" "VkShaderFloatControlsIndependence",
    SField.mk "shaderSignedZeroInfNanPreserveFloat16" "VkBool32",
    SField.mk "shaderSignedZeroInfNanPreserveFloat32" "VkBool32",
    SField.mk "shaderSignedZeroInfNanPreserveFloat64" "VkBool32",
    SField.mk "shaderDenormPreserveFloat16" "VkBool32",
    SField.mk "shaderDenormPreserveFloat32" "VkBool32",
    SField.mk "shaderDenormPreserveFloat64" "VkBool32",
    SField.mk "shaderDenormFlushToZeroFloat16" "VkBool32",
    SField.mk "shaderDenormFlushToZeroFloat32" "VkBool32",
    SField.mk "shaderDenormFlushToZeroFloat64" "VkBool32",
    SField.mk "shaderRoundingModeRTEFloat16" "VkBool32",
    SField.mk "shaderRoundingModeRTEFloat32" "VkBool32",
    SField.mk "shaderRoundingModeRTEFloat64" "VkBool32",
    SField.mk "shaderRoundingModeRTZFloat16" "VkBool32",
    SField.mk "shaderRoundingModeRTZFloat32" "VkBool32",
    SField.mk "shaderRoundingModeRTZFloat64" "VkBool32"]

/-- vk.py dataclass VkPhysicalDeviceVulkan11Properties. -/
def VkPhysicalDeviceVulkan11Properties : StructDef :=
  StructDef.mk "VkPhysicalDeviceVulkan11Properties"
   [SField.mk "deviceUUID" "uint8_t*VK_UUID_SIZE",
    SField.mk "driverUUID" "uint8_t*VK_UUID_SIZE",
    SField.mk "deviceLUID" "uint8_t*VK_LUID_SIZE",
    SField.mk "deviceNodeMask" "uint32_t",
    SField.mk "deviceLUIDValid" "VkBool32",
    SField.mk "subgroupSize" "uint32_t",
    SField.mk "subgroupSupportedStages" "VkShaderStageFlags",
    SField.mk "subgroupSupportedOperations" "VkSubgroupFeatureFlags",
    SField.mk "subgroupQuadOperationsInAllStages" "VkBool32",
    SField.mk "pointClippingBehavior" "VkPointClippingBehavior",
    SField.mk "maxMultiviewViewCount" "uint32_t",
    SField.mk "maxMultiviewInstanceIndex" "uint32_t",
    SField.mk "protectedNoFault" "VkBool32",
    SField.mk "maxPerSetDescriptors" "uint32_t",
    SField.mk "maxMemoryAllocationSize" "VkDeviceSize"]

/-- vk.py dataclass VkPhysicalDeviceVulkan11Features. -/
def VkPhysicalDeviceVulkan11Features : StructDef :=
  StructDef.mk "VkPhysicalDeviceVulkan11Features"
   [SField.mk "storageBuffer16BitAccess" "VkBool32",
    SField.mk "uniformAndStorageBuffer16BitAccess" "VkBool32",
    SField.mk "storagePushConstant16" "VkBool32",
    SField.mk "storageInputOutput16" "VkBool32",
    SField.mk "multiview" "VkBool32",
    SField.mk "multiviewGeometryShader" "VkBool32",
    SField.mk "multiviewTessellationShader" "VkBool32",
    SField.mk "variablePointersStorageBuffer" "VkBool32",
    SField.mk "variablePointers" "VkBool32",
    SField.mk "protectedMemory" "VkBool32",
    SField.mk "samplerYcbcrConversion" "VkBool32",
    SField.mk "shaderDrawParameters" "VkBool32"]

/-- vk.py dataclass VkPhysicalDeviceVulkan12Properties. -/
def VkPhysicalDeviceVulkan12Properties : StructDef :=
  StructDef.mk "VkPhysicalDeviceVulkan12Properties"
   [SField.mk "driverID" "VkDriverId",
    SField.mk "driverName" "str",
    SField.mk "driverInfo" "str",
    SField.mk "conformanceVersion" "ConformanceVersion",
    SField.mk "denormBehaviorIndependence" "VkShaderFloatControlsIndependence",
    SField.mk "roundingModeIndependence" "VkShaderFloatControlsIndependence",
    SField.mk "shaderSignedZeroInfNanPreserveFloat16" "VkBool32",
    SField.mk "shaderSignedZeroInfNanPreserveFloat32" "VkBool32",
    SField.mk "shaderSignedZeroInfNanPreserveFloat64" "VkBool32",
    SField.mk "shaderDenormPreserveFloat16" "VkBool32",
    SField.mk "shaderDenormPreserveFloat32" "VkBool32",
    SField.mk "shaderDenormPreserveFloat64" "VkBool32",
    SField.mk "shaderDenormFlushToZeroFloat16" "VkBool32",
    SField.mk "shaderDenormFlushToZeroFloat32" "VkBool32",
    SField.mk "shaderDenormFlushToZeroFloat64" "VkBool32",
    SField.mk "shaderRoundingModeRTEFloat16" "VkBool32",
    SField.mk "shaderRoundingModeRTEFloat32" "VkBool32",
    SField.mk "shaderRoundingModeRTEFloat64" "VkBool32",
    SField.mk "shaderRoundingModeRTZFloat16" "VkBool32",
    SField.mk "shaderRoundingModeRTZFloat32" "VkBool32",
    SField.mk "shaderRoundingModeRTZFloat64" "VkBool32",
    SField.mk "maxUpdateAfterBindDescriptorsInAllPools" "uint32_t",
    SField.mk "shaderUniformBufferArrayNonUniformIndexingNative" "VkBool32",
    SField.mk "shaderSampledImageArrayNonUniformIndexingNative" "VkBool32",
    SField.mk "shaderStorageBufferArrayNonUniformIndexingNative" "VkBool32",
    SField.mk "shaderStorageImageArrayNonUniformIndexingNative" "VkBool32",
    SField.mk "shaderInputAttachmentArrayNonUniformIndexingNative" "VkBool32",
    SField.mk "robustBufferAccessUpdateAfterBind" "VkBool32",
    SField.mk "quadDivergentImplicitLod" "VkBool32",
    SField.mk "maxPerStageDescriptorUpdateAfterBindSamplers" "uint32_t",
    SField.mk "maxPerStageDescriptorUpdateAfterBindUniformBuffers" "uint32_t",
    SField.mk "maxPerStageDescriptorUpdateAfterBindStorageBuffers" "uint32_t",
    SField.mk "maxPerStageDescriptorUpdateAfterBindSampledImages" "uint32_t",
    SField.mk "maxPerStageDescriptorUpdateAfterBindStorageImages" "uint32_t",
    SField.mk "maxPerStageDescriptorUpdateAfterBindInputAttachments" "uint32_t",
    SField.mk "maxPerStageUpdateAfterBindResources" "uint32_t",
    SField.mk "maxDescriptorSetUpdateAfterBindSamplers" "uint32_t",
    SField.mk "maxDescriptorSetUpdateAfterBindUniformBuffers" "uint32_t",
    SField.mk "maxDescriptorSetUpdateAfterBindUniformBuffersDynamic" "uint32_t",
    SField.mk "maxDescriptorSetUpdateAfterBindStorageBuffers" "uint32_t",
    SField.mk "maxDescriptorSetUpdateAfterBindStorageBuffersDynamic" "uint32_t",
    SField.mk "maxDescriptorSetUpdateAfterBindSampledImages" "uint32_t",
    SField.mk "maxDescriptorSetUpdateAfterBindStorageImages" "uint32_t",
    SField.mk "maxDescriptorSetUpdateAfterBindInputAttachments" "uint32_t",
    SField.mk "supportedDepthResolveModes" "VkResolveModeFlags",
    SField.mk "supportedStencilResolveModes" "VkResolveModeFlags",
    SField.mk "independentResolveNone" "VkBool32",
    SField.mk "independentResolve" "VkBool32",
    SField.mk "filterMinmaxSingleComponentFormats" "VkBool32",
    SField.mk "filterMinmaxImageComponentMapping" "VkBool32",
    SField.mk "maxTimelineSemaphoreValueDifference" "uint64_t",
    SField.mk "framebufferIntegerColorSampleCounts" "VkSampleCountFlags"]

/-- vk.py dataclass VkPhysicalDeviceVulkan12Features. -/
def VkPhysicalDeviceVulkan12Features : StructDef :=
  StructDef.mk "VkPhysicalDeviceVulkan12Features"
   [SField.mk "samplerMirrorClampToEdge" "VkBool32",
    SField.mk "drawIndirectCount" "VkBool32",
    SField.mk "storageBuffer8BitAccess" "VkBool32",
    SField.mk "uniformAndStorageBuffer8BitAccess" "VkBool32",
    SField.mk "storagePushConstant8" "VkBool32",
    SField.mk "shaderBufferInt64Atomics" "VkBool32",
    SField.mk "shaderSharedInt64Atomics" "VkBool32",
    SField.mk "shaderFloat16" "VkBool32",
    SField.mk "shaderInt8" "VkBool32",
    SField.mk "descriptorIndexing" "VkBool32",
    SField.mk "shaderInputAttachmentArrayDynamicIndexing" "VkBool32",
    SField.mk "shaderUniformTexelBufferArrayDynamicIndexing" "VkBool32",
    SField.mk "shaderStorageTexelBufferArrayDynamicIndexing" "VkBool32",
    SField.mk "shaderUniformBufferArrayNonUniformIndexing" "VkBool32",
    SField.mk "shaderSampledImageArrayNonUniformIndexing" "VkBool32",
    SField.mk "shaderStorageBufferArrayNonUniformIndexing" "VkBool32",
    SField.mk "shaderStorageImageArrayNonUniformIndexing" "VkBool32",
    SField.mk "shaderInputAttachmentArrayNonUniformIndexing" "VkBool32",
    SField.mk "shaderUniformTexelBufferArrayNonUniformIndexing" "VkBool32",
    SField.mk "shaderStorageTexelBufferArrayNonUniformIndexing" "VkBool32",
    SField.mk "descriptorBindingUniformBufferUpdateAfterBind" "VkBool32",
    SField.mk "descriptorBindingSampledImageUpdateAfterBind" "VkBool32",
    SField.mk "descriptorBindingStorageImageUpdateAfterBind" "VkBool32",
    SField.mk "descriptorBindingStorageBufferUpdateAfterBind" "VkBool32",
    SField.mk "descriptorBindingUniformTexelBufferUpdateAfterBind" "VkBool32",
    SField.mk "descriptorBindingStorageTexelBufferUpdateAfterBind" "VkBool32",
    SField.mk "descriptorBindingUpdateUnusedWhilePending" "VkBool32",
    SField.mk "descriptorBindingPartiallyBound" "VkBool32",
    SField.mk "descriptorBindingVariableDescriptorCount" "VkBool32",
    SField.mk "runtimeDescriptorArray" "VkBool32",
    SField.mk "samplerFilterMinmax" "VkBool32",
    SField.mk "scalarBlockLayout" "VkBool32",
    SField.mk "imagelessFramebuffer" "VkBool32",
    SField.mk "uniformBufferStandardLayout" "VkBool32",
    SField.mk "shaderSubgroupExtendedTypes" "VkBool32",
    SField.mk "separateDepthStencilLayouts" "VkBool32",
    SField.mk "hostQueryReset" "VkBool32",
    SField.mk "timelineSemaphore" "VkBool32",
    SField.mk "bufferDeviceAddress" "VkBool32",
    SField.mk "bufferDeviceAddressCaptureReplay" "VkBool32",
    SField.mk "bufferDeviceAddressMultiDevice" "VkBool32",
    SField.mk "vulkanMemoryModel" "VkBool32",
    SField.mk "vulkanMemoryModelDeviceScope" "VkBool32",
    SField.mk "vulkanMemoryModelAvailabilityVisibilityChains" "VkBool32",
    SField.mk "shaderOutputViewportIndex" "VkBool32",
    SField.mk "shaderOutputLayer" "VkBool32",
    SField.mk "subgroupBroadcastDynamicId" "VkBool32"]

/-- vk.py dataclass VkPhysicalDeviceVulkan13Properties. -/
def VkPhysicalDeviceVulkan13Properties : StructDef :=
  StructDef.mk "VkPhysicalDeviceVulkan13Properties"
   [SField.mk "minSubgroupSize" "uint32_t",
    SField.mk "maxSubgroupSize" "uint32_t",
    SField.mk "maxComputeWorkgroupSubgroups" "uint32_t",
    SField.mk "requiredSubgroupSizeStages" "VkShaderStageFlags",
    SField.mk "maxInlineUniformBlockSize" "uint32_t",
    SField.mk "maxPerStageDescriptorInlineUniformBlocks" "uint32_t",
    SField.mk "maxPerStageDescriptorUpdateAfterBindInlineUniformBlocks" "uint32_t",
    SField.mk "maxDescriptorSetInlineUniformBlocks" "uint32_t",
    SField.mk "maxDescriptorSetUpdateAfterBindInlineUniformBlocks" "uint32_t",
    SField.mk "maxInlineUniformTotalSize" "uint32_t",
    SField.mk "integerDotProduct8BitUnsignedAccelerated" "VkBool32",
    SField.mk "integerDotProduct8BitSignedAccelerated" "VkBool32",
    SField.mk "integerDotProduct8BitMixedSignednessAccelerated" "VkBool32",
    SField.mk "integerDotProduct4x8BitPackedUnsignedAccelerated" "VkBool32",
    SField.mk "integerDotProduct4x8BitPackedSignedAccelerated" "VkBool32",
    SField.mk "integerDotProduct4x8BitPackedMixedSignednessAccelerated" "VkBool32",
    SField.mk "integerDotProduct16BitUnsignedAccelerated" "VkBool32",
    SField.mk "integerDotProduct16BitSignedAccelerated" "VkBool32",
    SField.mk "integerDotProduct16BitMixedSignednessAccelerated" "VkBool32",
    SField.mk "integerDotProduct32BitUnsignedAccelerated" "VkBool32",
    SField.mk "integerDotProduct32BitSignedAccelerated" "VkBool32",
    SField.mk "integerDotProduct32BitMixedSignednessAccelerated" "VkBool32",
    SField.mk "integerDotProduct64BitUnsignedAccelerated" "VkBool32",
    SField.mk "integerDotProduct64BitSignedAccelerated" "VkBool32",
    SField.mk "integerDotProduct64BitMixedSignednessAccelerated" "VkBool32",
    SField.mk "integerDotProductAccumulatingSaturating8BitUnsignedAccelerated" "VkBool32",
    SField.mk "integerDotProductAccumulatingSaturating8BitSignedAccelerated" "VkBool32",
    SField.mk "integerDotProductAccumulatingSaturating8BitMixedSignednessAccelerated" "VkBool32",
    SField.mk "integerDotProductAccumulatingSaturating4x8BitPackedUnsignedAccelerated" "VkBool32",
    SField.mk "integerDotProductAccumulatingSaturating4x8BitPackedSignedAccelerated" "VkBool32",
    SField.mk "integerDotProductAccumulatingSaturating4x8BitPackedMixedSignednessAccelerated" "VkBool32",
    SField.mk "integerDotProductAccumulatingSaturating16BitUnsignedAccelerated" "VkBool32",
    SField.mk "integerDotProductAccumulatingSaturating16BitSignedAccelerated" "VkBool32",
    SField.mk "integerDotProductAccumulatingSaturating16BitMixedSignednessAccelerated" "VkBool32",
    SField.mk "integerDotProductAccumulatingSaturating32BitUnsignedAccelerated" "VkBool32",
    SField.mk "integerDotProductAccumulatingSaturating32BitSignedAccelerated" "VkBool32",
    SField.mk "integerDotProductAccumulatingSaturating32BitMixedSignednessAccelerated" "VkBool32",
    SField.mk "integerDotProductAccumulatingSaturating64BitUnsignedAccelerated" "VkBool32",
    SField.mk "integerDotProductAccumulatingSaturating64BitSignedAccelerated" "VkBool32",
    SField.mk "integerDotProductAccumulatingSaturating64BitMixedSignednessAccelerated" "VkBool32",
    SField.mk "storageTexelBufferOffsetAlignmentBytes" "VkDeviceSize",
    SField.mk "storageTexelBufferOffsetSingleTexelAlignment" "VkBool32",
    SField.mk "uniformTexelBufferOffsetAlignmentBytes" "VkDeviceSize",
    SField.mk "uniformTexelBufferOffsetSingleTexelAlignment" "VkBool32",
    SField.mk "maxBufferSize" "VkDeviceSize"]

/-- vk.py dataclass VkPhysicalDeviceVulkan13Features. -/
def VkPhysicalDeviceVulkan13Features : StructDef :=
  StructDef.mk "VkPhysicalDeviceVulkan13Features"
   [SField.mk "robustImageAccess" "VkBool32",
    SField.mk "inlineUniformBlock" "VkBool32",
    SField.mk "descriptorBindingInlineUniformBlockUpdateAfterBind" "VkBool32",
    SField.mk "pipelineCreationCacheControl" "VkBool32",
    SField.mk "privateData" "VkBool32",
    SField.mk "shaderDemoteToHelperInvocation" "VkBool32",
    SField.mk "shaderTerminateInvocation" "VkBool32",
    SField.mk "subgroupSizeControl" "VkBool32",
    SField.mk "computeFullSubgroups" "VkBool32",
    SField.mk "synchronization2" "VkBool32",
    SField.mk "textureCompressionASTC_HDR" "VkBool32",
    SField.mk "shaderZeroInitializeWorkgroupMemory" "VkBool32",
    SField.mk "dynamicRendering" "VkBool32",
    SField.mk "shaderIntegerDotProduct" "VkBool32",
    SField.mk "maintenance4" "VkBool32"]

/-- vk.py dataclass VkPhysicalDeviceVulkan14Properties. -/
def VkPhysicalDeviceVulkan14Properties : StructDef :=
  StructDef.mk "VkPhysicalDeviceVulkan14Properties"
   [SField.mk "lineSubPixelPrecisionBits" "uint32_t",
    SField.mk "maxVertexAttribDivisor" "uint32_t",
    SField.mk "supportsNonZeroFirstInstance" "VkBool32",
    SField.mk "maxPushDescriptors" "uint32_t",
    SField.mk "dynamicRenderingLocalReadDepthStencilAttachments" "VkBool32",
    SField.mk "dynamicRenderingLocalReadMultisampledAttachments" "VkBool32",
    SField.mk "earlyFragmentMultisampleCoverageAfterSampleCounting" "VkBool32",
    SField.mk "earlyFragmentSampleMaskTestBeforeSampleCounting" "VkBool32",
    SField.mk "depthStencilSwizzleOneSupport" "VkBool32",
    SField.mk "polygonModePointSize" "VkBool32",
    SField.mk "nonStrictSinglePixelWideLinesUseParallelogram" "VkBool32",
    SField.mk "nonStrictWideLinesUseParallelogram" "VkBool32",
    SField.mk "blockTexelViewCompatibleMultipleLayers" "VkBool32",
    SField.mk "maxCombinedImageSamplerDescriptorCount" "uint32_t",
    SField.mk "fragmentShadingRateClampCombinerInputs" "VkBool32",
    SField.mk "defaultRobustnessStorageBuffers" "VkPipelineRobustnessBufferBehavior",
    SField.mk "defaultRobustnessUniformBuffers" "VkPipelineRobustnessBufferBehavior",
    SField.mk "defaultRobustnessVertexInputs" "VkPipelineRobustnessBufferBehavior",
    SField.mk "defaultRobustnessImages" "VkPipelineRobustnessBufferBehavior",
    SField.mk "copySrcLayoutCount" "uint32_t",
    SField.mk "pCopySrcLayouts" "List[VkImageLayout]",
    SField.mk "copyDstLayoutCount" "uint32_t",
    SField.mk "pCopyDstLayouts" "List[VkImageLayout]",
    SField.mk "optimalTilingLayoutUUID" "uint8_t",
    SField.mk "identicalMemoryTypeRequirements" "VkBool32"]

/-- vk.py dataclass VkPhysicalDeviceVulkan14Features. -/
def VkPhysicalDeviceVulkan14Features : StructDef :=
  StructDef.mk "VkPhysicalDeviceVulkan14Features"
   [SField.mk "globalPriorityQuery" "VkBool32",
    SField.mk "shaderSubgroupRotate" "VkBool32",
    SField.mk "shaderSubgroupRotateClustered" "VkBool32",
    SField.mk "shaderFloatControls2" "VkBool32",
    SField.mk "shaderExpectAssume" "VkBool32",
    SField.mk "rectangularLines" "VkBool32",
    SField.mk "bresenhamLines" "VkBool32",
    SField.mk "smoothLines" "VkBool32",
    SField.mk "stippledRectangularLines" "VkBool32",
    SField.mk "stippledBresenhamLines" "VkBool32",
    SField.mk "stippledSmoothLines" "VkBool32",
    SField.mk "vertexAttributeInstanceRateDivisor" "VkBool32",
    SField.mk "vertexAttributeInstanceRateZeroDivisor" "VkBool32",
    SField.mk "indexTypeUint8" "VkBool32",
    SField.mk "dynamicRenderingLocalRead" "VkBool32",
    SField.mk "maintenance5" "VkBool32",
    SField.mk "maintenance6" "VkBool32",
    SField.mk "pipelineProtectedAccess" "VkBool32",
    SField.mk "pipelineRobustness" "VkBool32",
    SField.mk "hostImageCopy" "VkBool32",
    SField.mk "pushDescriptor" "VkBool32"]

/-- vk.py dataclass VkPhysicalDeviceDriverProperties. -/
def VkPhysicalDeviceDriverProperties : StructDef :=
  StructDef.mk "VkPhysicalDeviceDriverProperties"
   [SField.mk "driverID" "VkDriverId",
    SField.mk "driverName" "str",
    SField.mk "driverInfo" "str",
    SField.mk "conformanceVersion" "ConformanceVersion"]

/-- vk.py structure alias: VkPhysicalDeviceLineRasterizationFeaturesEXT = VkPhysicalDeviceLineRasterizationFeatures (the Python alias binds the same
dataclass object, whose canonical name stays VkPhysicalDeviceLineRasterizationFeatures). -/
def VkPhysicalDeviceLineRasterizationFeaturesEXT : StructDef := VkPhysicalDeviceLineRasterizationFeatures

/-- vk.py structure alias: VkPhysicalDeviceLineRasterizationFeaturesKHR = VkPhysicalDeviceLineRasterizationFeatures (the Python alias binds the same
dataclass object, whose canonical name stays VkPhysicalDeviceLineRasterizationFeatures). -/
def VkPhysicalDeviceLineRasterizationFeaturesKHR : StructDef := VkPhysicalDeviceLineRasterizationFeatures

/-- vk.py structure alias: VkPhysicalDeviceShaderIntegerDotProductFeaturesKHR = VkPhysicalDeviceShaderIntegerDotProductFeatures (the Python alias binds the same
dataclass object, whose canonical name stays VkPhysicalDeviceShaderIntegerDotProductFeatures). -/
def VkPhysicalDeviceShaderIntegerDotProductFeaturesKHR : StructDef := VkPhysicalDeviceShaderIntegerDotProductFeatures

/-- vk.py structure alias: VkPhysicalDevice8BitStorageFeaturesKHR = VkPhysicalDevice8BitStorageFeatures (the Python alias binds the same
dataclass object, whose canonical name stays VkPhysicalDevice8BitStorageFeatures). -/
def VkPhysicalDevice8BitStorageFeaturesKHR : StructDef := VkPhysicalDevice8BitStorageFeatures

/-- vk.py structure alias: VkPhysicalDeviceShaderSubgroupExtendedTypesFeaturesKHR = VkPhysicalDeviceShaderSubgroupExtendedTypesFeatures (the Python alias binds the same
dataclass object, whose canonical name stays VkPhysicalDeviceShaderSubgroupExtendedTypesFeatures). -/
def VkPhysicalDeviceShaderSubgroupExtendedTypesFeaturesKHR : StructDef := VkPhysicalDeviceShaderSubgroupExtendedTypesFeatures

/-- vk.py structure alias: VkPhysicalDeviceVertexAttributeDivisorFeaturesKHR = VkPhysicalDeviceVertexAttributeDivisorFeatures (the Python alias binds the same
dataclass object, whose canonical name stays VkPhysicalDeviceVertexAttributeDivisorFeatures). -/
def VkPhysicalDeviceVertexAttributeDivisorFeaturesKHR : StructDef := VkPhysicalDeviceVertexAttributeDivisorFeatures

/-- vk.py structure alias: VkPhysicalDeviceVertexAttributeDivisorFeaturesEXT = VkPhysicalDeviceVertexAttributeDivisorFeatures (the Python alias binds the same
dataclass object, whose canonical name stays VkPhysicalDeviceVertexAttributeDivisorFeatures). -/
def VkPhysicalDeviceVertexAttributeDivisorFeaturesEXT : StructDef := VkPhysicalDeviceVertexAttributeDivisorFeatures

/-- vk.py structure alias: VkPhysicalDeviceIndexTypeUint8FeaturesKHR = VkPhysicalDeviceIndexTypeUint8Features (the Python alias binds the same
dataclass object, whose canonical name stays VkPhysicalDeviceIndexTypeUint8Features). -/
def VkPhysicalDeviceIndexTypeUint8FeaturesKHR : StructDef := VkPhysicalDeviceIndexTypeUint8Features

/-- vk.py structure alias: VkPhysicalDeviceIndexTypeUint8FeaturesEXT = VkPhysicalDeviceIndexTypeUint8Features (the Python alias binds the same
dataclass object, whose canonical name stays VkPhysicalDeviceIndexTypeUint8Features). -/
def VkPhysicalDeviceIndexTypeUint8FeaturesEXT : StructDef := VkPhysicalDeviceIndexTypeUint8Features

/-- vk.py structure alias: VkPhysicalDeviceVariablePointerFeatures = VkPhysicalDeviceVariablePointersFeatures (the Python alias binds the same
dataclass object, whose canonical name stays VkPhysicalDeviceVariablePointersFeatures). -/
def VkPhysicalDeviceVariablePointerFeatures : StructDef := VkPhysicalDeviceVariablePointersFeatures

/-- vk.py structure alias: VkPhysicalDeviceVariablePointersFeaturesKHR = VkPhysicalDeviceVariablePointersFeatures (the Python alias binds the same
dataclass object, whose canonical name stays VkPhysicalDeviceVariablePointersFeatures). -/
def VkPhysicalDeviceVariablePointersFeaturesKHR : StructDef := VkPhysicalDeviceVariablePointersFeatures

/-- vk.py structure alias: VkPhysicalDeviceVariablePointerFeaturesKHR = VkPhysicalDeviceVariablePointersFeatures (the Python alias binds the same
dataclass object, whose canonical name stays VkPhysicalDeviceVariablePointersFeatures). -/
def VkPhysicalDeviceVariablePointerFeaturesKHR : StructDef := VkPhysicalDeviceVariablePointersFeatures

/-- vk.py structure alias: VkPhysicalDeviceFloat16Int8FeaturesKHR = VkPhysicalDeviceShaderFloat16Int8Features (the Python alias binds the same
dataclass object, whose canonical name stays VkPhysicalDeviceShaderFloat16Int8Features). -/
def VkPhysicalDeviceFloat16Int8FeaturesKHR : StructDef := VkPhysicalDeviceShaderFloat16Int8Features

/-- vk.py structure alias: VkPhysicalDeviceShaderFloat16Int8FeaturesKHR = VkPhysicalDeviceShaderFloat16Int8Features (the Python alias binds the same
dataclass object, whose canonical name stays VkPhysicalDeviceShaderFloat16Int8Features). -/
def VkPhysicalDeviceShaderFloat16Int8FeaturesKHR : StructDef := VkPhysicalDeviceShaderFloat16Int8Features

/-- vk.py structure alias: VkPhysicalDeviceFloatControlsPropertiesKHR = VkPhysicalDeviceFloatControlsProperties (the Python alias binds the same
dataclass object, whose canonical name stays VkPhysicalDeviceFloatControlsProperties). -/
def VkPhysicalDeviceFloatControlsPropertiesKHR : StructDef := VkPhysicalDeviceFloatControlsProperties

/-- vk.py structure alias: VkPhysicalDeviceShaderDrawParametersFeatures = VkPhysicalDeviceShaderDrawParameterFeatures (the Python alias binds the same
dataclass object, whose canonical name stays VkPhysicalDeviceShaderDrawParameterFeatures). -/
def VkPhysicalDeviceShaderDrawParametersFeatures : StructDef := VkPhysicalDeviceShaderDrawParameterFeatures

/-- vk.py structure alias: VkPhysicalDeviceDriverPropertiesKHR = VkPhysicalDeviceDriverProperties (the Python alias binds the same
dataclass object, whose canonical name stays VkPhysicalDeviceDriverProperties). -/
def VkPhysicalDeviceDriverPropertiesKHR : StructDef := VkPhysicalDeviceDriverProperties

/-- The alias table of vk.py as (alias name, canonical name) pairs. -/
def STRUCT_ALIASES : List (String × String) :=
  [("VkPhysicalDeviceLineRasterizationFeaturesEXT", "VkPhysicalDeviceLineRasterizationFeatures"),
   ("VkPhysicalDeviceLineRasterizationFeaturesKHR", "VkPhysicalDeviceLineRasterizationFeatures"),
   ("VkPhysicalDeviceShaderIntegerDotProductFeaturesKHR", "VkPhysicalDeviceShaderIntegerDotProductFeatures"),
   ("VkPhysicalDevice8BitStorageFeaturesKHR", "VkPhysicalDevice8BitStorageFeatures"),
   ("VkPhysicalDeviceShaderSubgroupExtendedTypesFeaturesKHR", "VkPhysicalDeviceShaderSubgroupExtendedTypesFeatures"),
   ("VkPhysicalDeviceVertexAttributeDivisorFeaturesKHR", "VkPhysicalDeviceVertexAttributeDivisorFeatures"),
   ("VkPhysicalDeviceVertexAttributeDivisorFeaturesEXT", "VkPhysicalDeviceVertexAttributeDivisorFeatures"),
   ("VkPhysicalDeviceIndexTypeUint8FeaturesKHR", "VkPhysicalDeviceIndexTypeUint8Features"),
   ("VkPhysicalDeviceIndexTypeUint8FeaturesEXT", "VkPhysicalDeviceIndexTypeUint8Features"),
   ("VkPhysicalDeviceVariablePointerFeatures", "VkPhysicalDeviceVariablePointersFeatures"),
   ("VkPhysicalDeviceVariablePointersFeaturesKHR", "VkPhysicalDeviceVariablePointersFeatures"),
   ("VkPhysicalDeviceVariablePointerFeaturesKHR", "VkPhysicalDeviceVariablePointersFeatures"),
   ("VkPhysicalDeviceFloat16Int8FeaturesKHR", "VkPhysicalDeviceShaderFloat16Int8Features"),
   ("VkPhysicalDeviceShaderFloat16Int8FeaturesKHR", "VkPhysicalDeviceShaderFloat16Int8Features"),
   ("VkPhysicalDeviceFloatControlsPropertiesKHR", "VkPhysicalDeviceFloatControlsProperties"),
   ("VkPhysicalDeviceShaderDrawParametersFeatures", "VkPhysicalDeviceShaderDrawParameterFeatures"),
   ("VkPhysicalDeviceDriverPropertiesKHR", "VkPhysicalDeviceDriverProperties")]

/-- vk.py VULKAN_EXTENSIONS_AND_STRUCTS_MAPPING["extensions"], in insertion
order: extension name to (structure name, wire discriminator) list. -/
def VULKAN_EXTENSIONS_AND_STRUCTS_MAPPING : List (String × List (String × String)) :=
  [("VK_KHR_variable_pointers", [("VkPhysicalDeviceVariablePointerFeaturesKHR", "VK_STRUCTURE_TYPE_PHYSICAL_DEVICE_VARIABLE_POINTER_FEATURES"), ("VkPhysicalDeviceVariablePointersFeaturesKHR", "VK_STRUCTURE_TYPE_PHYSICAL_DEVICE_VARIABLE_POINTER_FEATURES")]),
   ("VK_KHR_shader_float16_int8", [("VkPhysicalDeviceShaderFloat16Int8FeaturesKHR", "VK_STRUCTURE_TYPE_PHYSICAL_DEVICE_SHADER_FLOAT16_INT8_FEATURES"), ("VkPhysicalDeviceFloat16Int8FeaturesKHR", "VK_STRUCTURE_TYPE_PHYSICAL_DEVICE_SHADER_FLOAT16_INT8_FEATURES")]),
   ("VK_EXT_image_2d_view_of_3d", [("VkPhysicalDeviceImage2DViewOf3DFeaturesEXT", "VK_STRUCTURE_TYPE_PHYSICAL_DEVICE_IMAGE_2D_VIEW_OF_3D_FEATURES_EXT")]),
   ("VK_EXT_custom_border_color", [("VkPhysicalDeviceCustomBorderColorFeaturesEXT", "VK_STRUCTURE_TYPE_PHYSICAL_DEVICE_CUSTOM_BORDER_COLOR_PROPERTIES_EXT")]),
   ("VK_EXT_primitive_topology_list_restart", [("VkPhysicalDevicePrimitiveTopologyListRestartFeaturesEXT", "VK_STRUCTURE_TYPE_PHYSICAL_DEVICE_PRIMITIVE_TOPOLOGY_LIST_RESTART_FEATURES_EXT")]),
   ("VK_EXT_provoking_vertex", [("VkPhysicalDeviceProvokingVertexFeaturesEXT", "VK_STRUCTURE_TYPE_PHYSICAL_DEVICE_PROVOKING_VERTEX_FEATURES_EXT")]),
   ("VK_KHR_index_type_uint8", [("VkPhysicalDeviceIndexTypeUint8FeaturesKHR", "VK_STRUCTURE_TYPE_PHYSICAL_DEVICE_INDEX_TYPE_UINT8_FEATURES")]),
   ("VK_EXT_index_type_uint8", [("VkPhysicalDeviceIndexTypeUint8FeaturesEXT", "VK_STRUCTURE_TYPE_PHYSICAL_DEVICE_INDEX_TYPE_UINT8_FEATURES")]),
   ("VK_KHR_vertex_attribute_divisor", [("VkPhysicalDeviceVertexAttributeDivisorFeaturesKHR", "VK_STRUCTURE_TYPE_PHYSICAL_DEVICE_VERTEX_ATTRIBUTE_DIVISOR_FEATURES")]),
   ("VK_EXT_vertex_attribute_divisor", [("VkPhysicalDeviceVertexAttributeDivisorFeaturesEXT", "VK_STRUCTURE_TYPE_PHYSICAL_DEVICE_VERTEX_ATTRIBUTE_DIVISOR_FEATURES")]),
   ("VK_EXT_transform_feedback", [("VkPhysicalDeviceTransformFeedbackFeaturesEXT", "VK_STRUCTURE_TYPE_PHYSICAL_DEVICE_TRANSFORM_FEEDBACK_FEATURES_EXT")]),
   ("VK_KHR_shader_subgroup_uniform_control_flow", [("VkPhysicalDeviceShaderSubgroupUniformControlFlowFeaturesKHR", "VK_STRUCTURE_TYPE_PHYSICAL_DEVICE_SHADER_SUBGROUP_UNIFORM_CONTROL_FLOW_FEATURES_KHR")]),
   ("VK_KHR_shader_subgroup_extended_types", [("VkPhysicalDeviceShaderSubgroupExtendedTypesFeaturesKHR", "VK_STRUCTURE_TYPE_PHYSICAL_DEVICE_SHADER_SUBGROUP_EXTENDED_TYPES_FEATURES")]),
   ("VK_KHR_8bit_storage", [("VkPhysicalDevice8BitStorageFeaturesKHR", "VK_STRUCTURE_TYPE_PHYSICAL_DEVICE_8BIT_STORAGE_FEATURES")]),
   ("VK_KHR_shader_integer_dot_product", [("VkPhysicalDeviceShaderIntegerDotProductFeaturesKHR", "VK_STRUCTURE_TYPE_PHYSICAL_DEVICE_SHADER_INTEGER_DOT_PRODUCT_FEATURES")]),
   ("VK_IMG_relaxed_line_rasterization", [("VkPhysicalDeviceRelaxedLineRasterizationFeaturesIMG", "VK_STRUCTURE_TYPE_PHYSICAL_DEVICE_RELAXED_LINE_RASTERIZATION_FEATURES_IMG")]),
   ("VK_KHR_line_rasterization", [("VkPhysicalDeviceLineRasterizationFeaturesKHR", "VK_STRUCTURE_TYPE_PHYSICAL_DEVICE_LINE_RASTERIZATION_FEATURES")]),
   ("VK_EXT_line_rasterization", [("VkPhysicalDeviceLineRasterizationFeaturesEXT", "VK_STRUCTURE_TYPE_PHYSICAL_DEVICE_LINE_RASTERIZATION_FEATURES")]),
   ("VK_EXT_primitives_generated_query", [("VkPhysicalDevicePrimitivesGeneratedQueryFeaturesEXT", "VK_STRUCTURE_TYPE_PHYSICAL_DEVICE_PRIMITIVES_GENERATED_QUERY_FEATURES_EXT")]),
   ("VK_KHR_shader_float_controls", [("VkPhysicalDeviceFloatControlsPropertiesKHR", "VK_STRUCTURE_TYPE_PHYSICAL_DEVICE_FLOAT_CONTROLS_PROPERTIES")]),
   ("VK_KHR_driver_properties", [("VkPhysicalDeviceDriverPropertiesKHR", "VK_STRUCTURE_TYPE_PHYSICAL_DEVICE_DRIVER_PROPERTIES")])]

/-- vk.py VULKAN_CORES_AND_STRUCTS_MAPPING["versions"], in insertion order. -/
def VULKAN_CORES_AND_STRUCTS_MAPPING : List (String × List (String × String)) :=
  [("Core11", [("VkPhysicalDeviceVulkan11Properties", "VK_STRUCTURE_TYPE_PHYSICAL_DEVICE_VULKAN_1_1_PROPERTIES"), ("VkPhysicalDeviceVulkan11Features", "VK_STRUCTURE_TYPE_PHYSICAL_DEVICE_VULKAN_1_1_FEATURES")]),
   ("Core12", [("VkPhysicalDeviceVulkan12Properties", "VK_STRUCTURE_TYPE_PHYSICAL_DEVICE_VULKAN_1_2_PROPERTIES"), ("VkPhysicalDeviceVulkan12Features", "VK_STRUCTURE_TYPE_PHYSICAL_DEVICE_VULKAN_1_2_FEATURES")]),
   ("Core13", [("VkPhysicalDeviceVulkan13Properties", "VK_STRUCTURE_TYPE_PHYSICAL_DEVICE_VULKAN_1_3_PROPERTIES"), ("VkPhysicalDeviceVulkan13Features", "VK_STRUCTURE_TYPE_PHYSICAL_DEVICE_VULKAN_1_3_FEATURES")]),
   ("Core14", [("VkPhysicalDeviceVulkan14Properties", "VK_STRUCTURE_TYPE_PHYSICAL_DEVICE_VULKAN_1_4_PROPERTIES"), ("VkPhysicalDeviceVulkan14Features", "VK_STRUCTURE_TYPE_PHYSICAL_DEVICE_VULKAN_1_4_FEATURES")])]

/-- vk.py LIST_TYPE_FIELD_AND_SIZE_MAPPING: list-typed field name to the
sibling size field name. -/
def LIST_TYPE_FIELD_AND_SIZE_MAPPING : List (String × String) :=
  [("pCopySrcLayouts", "copySrcLayoutCount"), ("pCopyDstLayouts", "copyDstLayoutCount"), ("memoryTypes", "memoryTypeCount"), ("memoryHeaps", "memoryHeapCount")]

/-- vk.py VULKAN_VERSIONS_AND_STRUCTS_MAPPING. -/
def VULKAN_VERSIONS_AND_STRUCTS_MAPPING : List (String × List (String × String)) :=
  [("VK_VERSION_1_0",
    [("VkPhysicalDeviceProperties", ""),
     ("VkPhysicalDeviceFeatures", ""),
     ("VkPhysicalDeviceMemoryProperties", "")]),
   ("VK_VERSION_1_1",
    [("VkPhysicalDeviceSubgroupProperties", "VK_STRUCTURE_TYPE_PHYSICAL_DEVICE_SUBGROUP_PROPERTIES"),
     ("VkPhysicalDevicePointClippingProperties", "VK_STRUCTURE_TYPE_PHYSICAL_DEVICE_POINT_CLIPPING_PROPERTIES"),
     ("VkPhysicalDeviceMultiviewProperties", "VK_STRUCTURE_TYPE_PHYSICAL_DEVICE_MULTIVIEW_PROPERTIES"),
     ("VkPhysicalDeviceIDProperties", "VK_STRUCTURE_TYPE_PHYSICAL_DEVICE_ID_PROPERTIES"),
     ("VkPhysicalDeviceMaintenance3Properties", "VK_STRUCTURE_TYPE_PHYSICAL_DEVICE_MAINTENANCE_3_PROPERTIES"),
     ("VkPhysicalDeviceMultiviewFeatures", "VK_STRUCTURE_TYPE_PHYSICAL_DEVICE_MULTIVIEW_FEATURES"),
     ("VkPhysicalDeviceVariablePointersFeatures", "VK_STRUCTURE_TYPE_PHYSICAL_DEVICE_VARIABLE_POINTERS_FEATURES"),
     ("VkPhysicalDeviceProtectedMemoryFeatures", "VK_STRUCTURE_TYPE_PHYSICAL_DEVICE_PROTECTED_MEMORY_FEATURES"),
     ("VkPhysicalDeviceSamplerYcbcrConversionFeatures", "VK_STRUCTURE_TYPE_PHYSICAL_DEVICE_SAMPLER_YCBCR_CONVERSION_FEATURES"),
     ("VkPhysicalDeviceShaderDrawParameterFeatures", "VK_STRUCTURE_TYPE_PHYSICAL_DEVICE_SHADER_DRAW_PARAMETERS_FEATURES"),
     ("VkPhysicalDevice16BitStorageFeatures", "VK_STRUCTURE_TYPE_PHYSICAL_DEVICE_16BIT_STORAGE_FEATURES")])]

/-- vk.py EXTENSION_INDEPENDENT_STRUCTS. -/
def EXTENSION_INDEPENDENT_STRUCTS : List StructDef :=
  [VkPhysicalDeviceProperties,
   VkPhysicalDeviceFeatures,
   VkPhysicalDeviceMemoryProperties,
   VkPhysicalDeviceSubgroupProperties,
   VkPhysicalDevicePointClippingProperties,
   VkPhysicalDeviceMultiviewProperties,
   VkPhysicalDeviceIDProperties,
   VkPhysicalDeviceMaintenance3Properties,
   VkPhysicalDevice16BitStorageFeatures,
   VkPhysicalDeviceMultiviewFeatures,
   VkPhysicalDeviceVariablePointersFeatures,
   VkPhysicalDeviceProtectedMemoryFeatures,
   VkPhysicalDeviceSamplerYcbcrConversionFeatures,
   VkPhysicalDeviceShaderDrawParameterFeatures]

/-- vk.py ALL_STRUCTS: the exhaustive structure list handed to the generic
visitor emission. Entries that are aliases denote the same StructDef (and
hence the same canonical name), exactly as the Python aliases do. -/
def ALL_STRUCTS : List StructDef :=
  [VkPhysicalDeviceFloatControlsPropertiesKHR,
   VkPhysicalDeviceProperties,
   VkPhysicalDeviceMemoryProperties,
   VkPhysicalDeviceSubgroupProperties,
   VkPhysicalDevicePointClippingProperties,
   VkPhysicalDeviceMultiviewProperties,
   VkPhysicalDeviceIDProperties,
   VkPhysicalDeviceMaintenance3Properties,
   VkPhysicalDeviceSparseProperties,
   VkImageFormatProperties,
   VkQueueFamilyProperties,
   VkExtensionProperties,
   VkLayerProperties,
   VkFormatProperties,
   VkPhysicalDeviceVariablePointerFeaturesKHR,
   VkPhysicalDeviceVariablePointersFeaturesKHR,
   VkPhysicalDeviceShaderFloat16Int8FeaturesKHR,
   VkPhysicalDeviceFloat16Int8FeaturesKHR,
   VkPhysicalDeviceImage2DViewOf3DFeaturesEXT,
   VkPhysicalDeviceCustomBorderColorFeaturesEXT,
   VkPhysicalDevicePrimitiveTopologyListRestartFeaturesEXT,
   VkPhysicalDeviceProvokingVertexFeaturesEXT,
   VkPhysicalDeviceIndexTypeUint8FeaturesKHR,
   VkPhysicalDeviceIndexTypeUint8FeaturesEXT,
   VkPhysicalDeviceVertexAttributeDivisorFeaturesKHR,
   VkPhysicalDeviceVertexAttributeDivisorFeaturesEXT,
   VkPhysicalDeviceTransformFeedbackFeaturesEXT,
   VkPhysicalDeviceShaderSubgroupUniformControlFlowFeaturesKHR,
   VkPhysicalDeviceShaderSubgroupExtendedTypesFeaturesKHR,
   VkPhysicalDevice8BitStorageFeaturesKHR,
   VkPhysicalDeviceShaderIntegerDotProductFeaturesKHR,
   VkPhysicalDeviceRelaxedLineRasterizationFeaturesIMG,
   VkPhysicalDeviceLineRasterizationFeaturesKHR,
   VkPhysicalDeviceLineRasterizationFeaturesEXT,
   VkPhysicalDevicePrimitivesGeneratedQueryFeaturesEXT,
   VkPhysicalDevice16BitStorageFeatures,
   VkPhysicalDeviceMultiviewFeatures,
   VkPhysicalDeviceProtectedMemoryFeatures,
   VkPhysicalDeviceSamplerYcbcrConversionFeatures,
   VkPhysicalDeviceShaderDrawParameterFeatures,
   VkPhysicalDeviceLimits,
   VkPhysicalDeviceFeatures,
   VkPhysicalDeviceVulkan11Properties,
   VkPhysicalDeviceVulkan11Features,
   VkPhysicalDeviceVulkan12Properties,
   VkPhysicalDeviceVulkan12Features,
   VkPhysicalDeviceVulkan13Properties,
   VkPhysicalDeviceVulkan13Features,
   VkPhysicalDeviceVulkan14Properties,
   VkPhysicalDeviceVulkan14Features,
   VkPhysicalDeviceDriverProperties]
/-- The canonical dataclass names of the metadata model, in definition order. -/
def ALL_DATACLASS_NAMES : List String :=
  ["ConformanceVersion",
   "VkExtent3D",
   "VkPhysicalDeviceLimits",
   "VkPhysicalDeviceShaderDrawParameterFeatures",
   "VkExtensionProperties",
   "VkFormatProperties",
   "VkLayerProperties",
   "VkQueueFamilyProperties",
   "VkPhysicalDeviceSparseProperties",
   "VkImageFormatProperties",
   "VkPhysicalDeviceSamplerYcbcrConversionFeatures",
   "VkPhysicalDeviceIDProperties",
   "VkPhysicalDeviceMaintenance3Properties",
   "VkPhysicalDevice16BitStorageFeatures",
   "VkPhysicalDeviceMultiviewFeatures",
   "VkPhysicalDeviceSubgroupProperties",
   "VkPhysicalDevicePointClippingProperties",
   "VkPhysicalDeviceMultiviewProperties",
   "VkMemoryType",
   "VkMemoryHeap",
   "VkPhysicalDeviceMemoryProperties",
   "VkPhysicalDeviceProperties",
   "VkPhysicalDeviceFeatures",
   "VkPhysicalDeviceShaderFloat16Int8Features",
   "VkPhysicalDeviceProtectedMemoryFeatures",
   "VkPhysicalDeviceVariablePointersFeatures",
   "VkPhysicalDeviceImage2DViewOf3DFeaturesEXT",
   "VkPhysicalDeviceCustomBorderColorFeaturesEXT",
   "VkPhysicalDevicePrimitiveTopologyListRestartFeaturesEXT",
   "VkPhysicalDeviceProvokingVertexFeaturesEXT",
   "VkPhysicalDeviceIndexTypeUint8Features",
   "VkPhysicalDeviceVertexAttributeDivisorFeatures",
   "VkPhysicalDeviceTransformFeedbackFeaturesEXT",
   "VkPhysicalDeviceShaderSubgroupUniformControlFlowFeaturesKHR",
   "VkPhysicalDeviceShaderSubgroupExtendedTypesFeatures",
   "VkPhysicalDevice8BitStorageFeatures",
   "VkPhysicalDeviceShaderIntegerDotProductFeatures",
   "VkPhysicalDeviceRelaxedLineRasterizationFeaturesIMG",
   "VkPhysicalDeviceLineRasterizationFeatures",
   "VkPhysicalDevicePrimitivesGeneratedQueryFeaturesEXT",
   "VkPhysicalDeviceFloatControlsProperties",
   "VkPhysicalDeviceVulkan11Properties",
   "VkPhysicalDeviceVulkan11Features",
   "VkPhysicalDeviceVulkan12Properties",
   "VkPhysicalDeviceVulkan12Features",
   "VkPhysicalDeviceVulkan13Properties",
   "VkPhysicalDeviceVulkan13Features",
   "VkPhysicalDeviceVulkan14Properties",
   "VkPhysicalDeviceVulkan14Features",
   "VkPhysicalDeviceDriverProperties"]

/-! ## Generic visitor-template emission (vkjson_generator.py lines 346-462)

The generator writes C++ text; here each emitted `Iterate` function is
modelled as the structured list of visitor calls it contains, in emission
order.  `VisitCall.visit key target` stands for
`visitor->Visit("key", &obj->target)` and
`VisitCall.visitArray key size target` for
`visitor->VisitArray("key", obj->size, &obj->target)`.
-/

/-- One visitor call of an emitted `Iterate` function. -/
inductive VisitCall where
  | visit (key : String) (target : String)
  | visitArray (key : String) (size : String) (target : String)
deriving DecidableEq

/-- The key of a visitor call. -/
def VisitCall.key : VisitCall → String
  | .visit k _ => k
  | .visitArray k _ _ => k

/-- The visited member of a visitor call. -/
def VisitCall.target : VisitCall → String
  | .visit _ t => t
  | .visitArray _ _ t => t

/-- One emitted `Iterate` function of `generate_struct_template`: the
structure (parameter) type name, the parameter variable chosen from the
type-name pattern, and the visitor calls in emission order. -/
structure GenIterate where
  structName : String
  structVar : String
  calls : List VisitCall
deriving DecidableEq

/-- The per-field loop of `generate_struct_template`: a `List[...]`-typed
field becomes a `VisitArray` call whose size argument is looked up in
`LIST_TYPE_FIELD_AND_SIZE_MAPPING` (a missing entry is the Python `KeyError`,
modelled as `none`); any other field becomes a `Visit` call. -/
def template_calls : List SField → Option (List VisitCall)
  | [] => some []
  | f :: fs =>
    if strLeads "List[" f.fty then
      match alookup f.fname LIST_TYPE_FIELD_AND_SIZE_MAPPING with
      | none => none
      | some sz =>
        match template_calls fs with
        | none => none
        | some cs => some (VisitCall.visitArray f.fname sz f.fname :: cs)
    else
      match template_calls fs with
      | none => none
      | some cs => some (VisitCall.visit f.fname f.fname :: cs)

/-- The parameter-variable choice of `generate_struct_template`: substring
tests `"Properties"`, `"Features"`, `"Limits"` in that order; a name matching
none of them is skipped (no function emitted). -/
def struct_var_for (structName : String) : Option String :=
  if strHasInfix "Properties" structName then some "properties"
  else if strHasInfix "Features" structName then some "features"
  else if strHasInfix "Limits" structName then some "limits"
  else none

/-- The main loop of `generate_struct_template` with its `processed_classes`
set: a structure whose (canonical) name was already processed is skipped;
otherwise the name is recorded and, when the name matches a parameter-variable
pattern, one `Iterate` is emitted. -/
def generate_struct_template_loop (processed : List String) :
    List StructDef → Option (List GenIterate)
  | [] => some []
  | s :: rest =>
    if processed.contains s.sname then generate_struct_template_loop processed rest
    else
      match struct_var_for s.sname with
      | none => generate_struct_template_loop (s.sname :: processed) rest
      | some sv =>
        match template_calls s.sfields with
        | none => none
        | some cs =>
          match generate_struct_template_loop (s.sname :: processed) rest with
          | none => none
          | some gs => some (⟨s.sname, sv, cs⟩ :: gs)

/-- `generate_struct_template(data_classes)`. -/
def generate_struct_template (classes : List StructDef) : Option (List GenIterate) :=
  generate_struct_template_loop [] classes

/-- The JSON key of an extension-wrapper member in
`generate_extension_struct_template`: remove `VkPhysicalDevice`, lower-case
the first character, and apply the one special-case rename. -/
def ext_json_field_name (structName : String) : String :=
  let n := String.mk (removeVkPhysicalDevice structName.data)
  let n : String :=
    match n.data with
    | [] => n
    | c :: cs => String.mk (Char.toLower c :: cs)
  if n == "8BitStorageFeaturesKHR" then "bit8StorageFeaturesKHR" else n

/-- One emitted wrapper `Iterate` (extension or core-version): the table key
it came from, the wrapper type, and its visitor calls in emission order. -/
structure GenWrapperIterate where
  tableKey : String
  structType : String
  calls : List VisitCall
deriving DecidableEq

/-- `generate_extension_struct_template`: for every extension of the mapping,
one `Iterate` over its wrapper that `Visit`s each contributed structure in
table order (key `ext_json_field_name`, member `get_struct_name`). -/
def generate_extension_struct_template : List GenWrapperIterate :=
  VULKAN_EXTENSIONS_AND_STRUCTS_MAPPING.map fun em =>
    { tableKey := em.1
      structType := get_vkjson_struct_name em.1
      calls := em.2.map fun sm =>
        VisitCall.visit (ext_json_field_name sm.1) (get_struct_name sm.1) }

/-- The member-name choice of the core-version emissions: `"properties"` when
the structure name contains `"Properties"`, else `"features"`. -/
def core_member_name (structName : String) : String :=
  if strHasInfix "Properties" structName then "properties" else "features"

/-- `generate_core_template`: for every core version, one `Iterate` over
`VkJson<version>` that `Visit`s the version's `properties` and `features`
members in table order. -/
def generate_core_template : List GenWrapperIterate :=
  VULKAN_CORES_AND_STRUCTS_MAPPING.map fun vm =>
    { tableKey := vm.1
      structType := "VkJson" ++ vm.1
      calls := vm.2.map fun sm =>
        VisitCall.visit (core_member_name sm.1) (core_member_name sm.1) }

/-! ## Struct-definition emission (vkjson_generator.py lines 129-205) -/

/-- One constructor statement of an emitted wrapper aggregate. -/
inductive CtorStmt where
  | setReportedFalse
  | memsetZero (memberVar : String) (sizeofType : String)
deriving DecidableEq

/-- One data member of an emitted wrapper aggregate: C++ type and name. -/
structure CMember where
  cty : String
  cvar : String
deriving DecidableEq

/-- An emitted wrapper aggregate definition. -/
structure WrapperDef where
  typeName : String
  instanceName : String
  ctor : List CtorStmt
  members : List CMember
deriving DecidableEq

/-- `generate_extension_struct_definition`: for every extension, a wrapper
whose constructor sets `reported = false` and memsets each contributed
structure member, and whose members are `bool reported` followed by one
member per contributed structure. -/
def generate_extension_struct_definition : List WrapperDef :=
  VULKAN_EXTENSIONS_AND_STRUCTS_MAPPING.map fun em =>
    { typeName := get_vkjson_struct_name em.1
      instanceName := get_vkjson_struct_variable_name em.1
      ctor := CtorStmt.setReportedFalse ::
        em.2.map (fun sm => CtorStmt.memsetZero (get_struct_name sm.1) sm.1)
      members := ⟨"bool", "reported"⟩ ::
        em.2.map (fun sm => ⟨sm.1, get_struct_name sm.1⟩) }

/-- `generate_vk_core_struct_definition`: for every core version, a wrapper
whose constructor memsets the version's `properties`/`features` members and
whose members are those structures — plus, for `Core14` only, the two
`std::vector<VkImageLayout>` members, written without any memset. -/
def generate_vk_core_struct_definition : List WrapperDef :=
  VULKAN_CORES_AND_STRUCTS_MAPPING.map fun vm =>
    { typeName := "VkJson" ++ vm.1
      instanceName := lowerStr vm.1
      ctor := vm.2.map fun sm => CtorStmt.memsetZero (core_member_name sm.1) sm.1
      members := vm.2.map (fun sm => (⟨sm.1, core_member_name sm.1⟩ : CMember)) ++
        (if vm.1 == "Core14" then
          [⟨"std::vector<VkImageLayout>", "copy_src_layouts"⟩,
           ⟨"std::vector<VkImageLayout>", "copy_dst_layouts"⟩]
         else []) }

/-! ## Semantics of an emitted `&&`-chain of visitor calls

The emitted traversal body is `f(call₁) && f(call₂) && …`; C++ `&&`
evaluates left to right and stops at the first `false`.
-/

/-- The value of the emitted `&&`-chain under a per-call visitor outcome. -/
def evalAndChain (f : VisitCall → Bool) : List VisitCall → Bool
  | [] => true
  | c :: cs => f c && evalAndChain f cs

/-- The calls actually evaluated by the emitted `&&`-chain: everything up to
and including the first failing call. -/
def visitedCalls (f : VisitCall → Bool) : List VisitCall → List VisitCall
  | [] => []
  | c :: cs => if f c then c :: visitedCalls f cs else [c]

/-! ## The emitted generic JSON engine (vkjson_generator.py lines 1106-1341)

The generated C++ uses JsonCpp.  `JVal` models a JsonCpp `Json::Value`:
one constructor per `Json::ValueType`.  The payload of `realValue` is an
exact rational; every numeric value the theorems touch is an integer far
below `2^53`, where C++ `double` arithmetic and comparisons are exact.
-/

/-- A JsonCpp `Json::Value`. -/
inductive JVal where
  | jnull
  | jint (n : Int)
  | juint (n : Nat)
  | jreal (q : ℚ)
  | jbool (b : Bool)
  | jstring (s : String)
  | jarray (xs : List JVal)
  | jobject (kvs : List (String × JVal))

/-- One hexadecimal digit as printed by `%x`: `0..15` to
`'0'..'9','a'..'f'`. -/
def hexDigitChar (n : Nat) : Char :=
  if n < 10 then Char.ofNat (48 + n) else Char.ofNat (87 + n)

/-- The `k` zero-padded lower-case big-endian hexadecimal digits of `v`
(the digits of `v % 16^k`), as `"%0kx"` prints them. -/
def toHexPad : Nat → Nat → List Char
  | 0, _ => []
  | k + 1, v => toHexPad k (v / 16) ++ [hexDigitChar (v % 16)]

/-- `ToJsonValue(const uint64_t&)`:
`snprintf(string, 19, "0x%016" PRIx64, value)` — the literal `0x` followed
by exactly 16 zero-padded lower-case hex digits, wrapped as a JSON string. -/
def u64ToJsonValue (v : Nat) : JVal :=
  JVal.jstring (String.mk ('0' :: 'x' :: toHexPad 16 v))

/-- The value of a hexadecimal digit as `scanf %x` accepts it
(case-insensitive). -/
def hexDigitVal (c : Char) : Option Nat :=
  if 48 ≤ c.toNat && c.toNat ≤ 57 then some (c.toNat - 48)
  else if 97 ≤ c.toNat && c.toNat ≤ 102 then some (c.toNat - 87)
  else if 65 ≤ c.toNat && c.toNat ≤ 70 then some (c.toNat - 55)
  else none

/-- C `isspace` in the default locale: space (32), tab (9), newline (10),
vertical tab (11), form feed (12), carriage return (13). -/
def cIsSpace (c : Char) : Bool :=
  c.toNat == 32 || c.toNat == 9 || c.toNat == 10 ||
  c.toNat == 11 || c.toNat == 12 || c.toNat == 13

/-- Consume up to `width` hexadecimal digits, accumulating their value;
returns the accumulated value and the number of digits consumed. -/
def takeHexDigits : Nat → Nat → Nat → List Char → Nat × Nat
  | 0, acc, n, _ => (acc, n)
  | _ + 1, acc, n, [] => (acc, n)
  | w + 1, acc, n, c :: cs =>
    match hexDigitVal c with
    | some d => takeHexDigits w (acc * 16 + d) (n + 1) cs
    | none => (acc, n)

/-- The optional sign of a `scanf` integer field: a consumed sign costs one
character of field width; the first component records a `-`. -/
def scanSign (width : Nat) : List Char → Bool × List Char × Nat
  | '-' :: rest => (true, rest, width - 1)
  | '+' :: rest => (false, rest, width - 1)
  | s => (false, s, width)

/-- The optional `0x`/`0X` of a `scanf` `%x` field: consumed (two characters
of width) when a hex digit follows and the width allows it. -/
def scanHexMark (width : Nat) : List Char → List Char × Nat
  | '0' :: x :: d :: rest =>
    if (x == 'x' || x == 'X') && (hexDigitVal d).isSome && decide (3 ≤ width) then
      (d :: rest, width - 2)
    else ('0' :: x :: d :: rest, width)
  | s => (s, width)

/-- The `%16llx` conversion of `sscanf` applied after the literal `"0x"` of
the format has already been matched: skip C whitespace, then an optional
sign, an optional `0x`/`0X` (consumed when a hex digit follows and the
field width allows it), then up to the remaining field width of hex digits,
case-insensitive; the conversion fails when it consumes no digit.  A `-`
sign wraps the value in unsigned 64-bit arithmetic as `strtoull` does. -/
def scanHexField (width : Nat) (s : List Char) : Option Nat :=
  let sg := scanSign width (s.dropWhile cIsSpace)
  let pr := scanHexMark sg.2.2 sg.2.1
  let vn := takeHexDigits pr.2 0 0 pr.1
  if vn.2 == 0 then none
  else some (if sg.1 then (2 ^ 64 - vn.1 % 2 ^ 64) % 2 ^ 64 else vn.1 % 2 ^ 64)

/-- `AsValue(Json::Value*, uint64_t*)` (vkjson_generator.py lines
1222-1227): require a JSON string, then
`sscanf(str, "0x%016" PRIx64, value) == 1`.  The literal `0` and `x` of the
format must match the first two characters; `%016llx` is the `%llx`
conversion with maximum field width 16 (a leading zero in a `scanf` width
is not a zero-pad flag). -/
def asValue_uint64 (j : JVal) : Option Nat :=
  match j with
  | JVal.jstring s =>
    match s.data with
    | c0 :: c1 :: rest => if c0 == '0' && c1 == 'x' then scanHexField 16 rest else none
    | _ => none
  | _ => none

/-- `IsIntegral(double)`: `trunc(value) == value`. -/
def IsIntegral (q : ℚ) : Bool := q.den == 1

/-- `AsValue(Json::Value*, int32_t*)` (lines 1211-1220): requires
`Json::realValue`, an integral payload, and the `int32_t` range. -/
def asValue_int32 (j : JVal) : Option Int :=
  match j with
  | JVal.jreal d =>
    if !(IsIntegral d) || decide (d < -2147483648) || decide (d > 2147483647) then none
    else some d.num
  | _ => none

/-- `AsValue(Json::Value*, uint32_t*)` (lines 1229-1237): requires
`Json::realValue`, an integral payload, and the `uint32_t` range. -/
def asValue_uint32 (j : JVal) : Option Nat :=
  match j with
  | JVal.jreal d =>
    if !(IsIntegral d) || decide (d < 0) || decide (d > 4294967295) then none
    else some d.num.toNat
  | _ => none

/-- `AsValue(Json::Value*, uint8_t*)` (lines 1239-1246).  The source reads

```
uint32_t value32 = 0;
AsValue(json_value, &value32);
if (value32 > std::numeric_limits<uint8_t>::max()) return false;
*value = static_cast<uint8_t>(value32);
return true;
```

the Boolean result of the inner `AsValue` call is discarded, so when the
inner conversion fails `value32` keeps its initialization `0` and the
function succeeds with value `0`. -/
def asValue_uint8 (j : JVal) : Option Nat :=
  let value32 : Nat := (asValue_uint32 j).getD 0
  if value32 > 255 then none else some value32

/-- `ReadValue` (lines 1328-1341) with a caller-supplied error string
out-parameter: `(*object)[key]` yields the JsonCpp null value when the key
is absent, and `if (!json_value)` is exactly the null test, so an absent or
null entry reports `"<key> missing."`; a present entry that the
type-directed `AsValue` rejects reports `"Wrong type for <key>."`; on
success the error string is left untouched (`none`). -/
def ReadValue {α : Type} (object : List (String × JVal)) (key : String)
    (asVal : JVal → Option α) : Option α × Option String :=
  match alookup key object with
  | none => (none, some (key ++ " missing."))
  | some JVal.jnull => (none, some (key ++ " missing."))
  | some v =>
    match asVal v with
    | some x => (some x, none)
    | none => (none, some ("Wrong type for " ++ key ++ "."))

/-! ## The emitted `Iterate(Visitor*, VkJsonDevice*)` and the decode entry
point (vkjson_generator.py lines 1023-1067, 1407-1419, 1437-1441)

The emitted device traversal is modelled as a state transformer over an
abstract device state: `apiVersion` (the `device->properties.apiVersion`
the `switch` scrutinizes) is explicit, the rest of
`VkPhysicalDeviceProperties` and every other visited non-wrapper member
carry opaque payloads of type `P`, and each extension wrapper carries its
`reported` flag and an opaque payload of type `C`.  The visitor is an
arbitrary triple of per-member transformers — a JSON-reading visitor for an
arbitrary input document is one instance — and each emitted
`visitor->Visit("key", &device->member)` call can read and write exactly
the member whose address it receives.
-/

/-- One extension wrapper member of `VkJsonDevice`: the extension name that
keys its conditional visit, its `reported` flag, and its contents. -/
structure ExtEntry (C : Type) where
  extName : String
  reported : Bool
  content : C
deriving DecidableEq

/-- The abstract state of a `VkJsonDevice`. -/
structure VkJsonDeviceSt (P C : Type) where
  apiVersion : Nat
  propsRest : P
  members : List (String × P)
  exts : List (ExtEntry C)
deriving DecidableEq

/-- A visitor over the device state: one transformer for the
`VkPhysicalDeviceProperties` member (which contains `apiVersion`), one for
every other non-wrapper member, one for an extension wrapper (which may
rewrite the `reported` flag it receives). -/
structure DeviceVisitor (P C : Type) where
  visitProps : String → Nat × P → Bool × (Nat × P)
  visitMember : String → P → Bool × P
  visitExt : String → Bool × C → Bool × (Bool × C)

/-- Update an association list at a key. -/
def asetMember {P : Type} (ms : List (String × P)) (k : String) (v : P) :
    List (String × P) :=
  ms.map fun kv => if kv.1 == k then (kv.1, v) else kv

/-- `visitor->Visit("key", &device->mvar)` for a non-wrapper member: the
visitor receives exactly that member's payload.  (In the generated struct
the member always exists; on a state lacking it the call is a no-op.) -/
def visitMemberStep {P C : Type} (V : DeviceVisitor P C) (key mvar : String)
    (d : VkJsonDeviceSt P C) : Bool × VkJsonDeviceSt P C :=
  match alookup mvar d.members with
  | some p =>
    let bp := V.visitMember key p
    (bp.1, { d with members := asetMember d.members mvar bp.2 })
  | none => (true, d)

/-- `visitor->Visit(key, &device->properties)`: the
`VkPhysicalDeviceProperties` member holds `apiVersion` and `propsRest`. -/
def propsStep {P C : Type} (V : DeviceVisitor P C) (key : String)
    (d : VkJsonDeviceSt P C) : Bool × VkJsonDeviceSt P C :=
  ((V.visitProps key (d.apiVersion, d.propsRest)).1,
   { d with apiVersion := (V.visitProps key (d.apiVersion, d.propsRest)).2.1,
            propsRest := (V.visitProps key (d.apiVersion, d.propsRest)).2.2 })

/-- The visit emitted by `emit_struct_visits_by_vk_version` for one
structure of a base-version table entry: member `get_struct_name(name)`,
JSON key its `re.sub(r"_([a-z])", …)` camelization; the
`VkPhysicalDeviceProperties` member holds `apiVersion` and is routed to
`propsStep`. -/
def versionStructStep {P C : Type} (V : DeviceVisitor P C) (structName : String)
    (d : VkJsonDeviceSt P C) : Bool × VkJsonDeviceSt P C :=
  if get_struct_name structName == "properties" then
    propsStep V (String.mk (camelLower (get_struct_name structName).data)) d
  else
    visitMemberStep V (String.mk (camelLower (get_struct_name structName).data))
      (get_struct_name structName) d

/-- A `&&`-chain of member visits: left to right, stopping at the first
failure (later visits are not executed). -/
def chainSteps {P C : Type} :
    List (VkJsonDeviceSt P C → Bool × VkJsonDeviceSt P C) →
    VkJsonDeviceSt P C → Bool × VkJsonDeviceSt P C
  | [], d => (true, d)
  | s :: rest, d =>
    let bd := s d
    if bd.1 then chainSteps rest bd.2 else (false, bd.2)

/-- The visit list emitted for one base-version table entry. -/
def versionVisits {P C : Type} (V : DeviceVisitor P C) (version : String) :
    List (VkJsonDeviceSt P C → Bool × VkJsonDeviceSt P C) :=
  ((alookup version VULKAN_VERSIONS_AND_STRUCTS_MAPPING).getD []).map
    fun sm => versionStructStep V sm.1

/-- The per-extension conditional visits emitted at the end of the device
traversal: `if (device->var.reported) { ret &= visitor->Visit(ext, &var); }`
in table order, each guard reading the current in-memory flag. -/
def iterateExtensions {P C : Type} (V : DeviceVisitor P C) :
    List (ExtEntry C) → Bool × List (ExtEntry C)
  | [] => (true, [])
  | e :: rest =>
    let be : Bool × ExtEntry C :=
      if e.reported then
        let brc := V.visitExt e.extName (e.reported, e.content)
        (brc.1, { e with reported := brc.2.1, content := brc.2.2 })
      else (true, e)
    let brest := iterateExtensions V rest
    (be.1 && brest.1, be.2 :: brest.2)

/-- `VK_MAKE_API_VERSION`. -/
def VK_MAKE_API_VERSION (variant major minor patch : Nat) : Nat :=
  (variant <<< 29) ||| (major <<< 22) ||| (minor <<< 12) ||| patch

/-- `VK_API_VERSION_1_0`. -/
def VK_API_VERSION_1_0 : Nat := VK_MAKE_API_VERSION 0 1 0 0

/-- `VK_API_VERSION_1_1`. -/
def VK_API_VERSION_1_1 : Nat := VK_MAKE_API_VERSION 0 1 1 0

/-- `VK_API_VERSION_1_2`. -/
def VK_API_VERSION_1_2 : Nat := VK_MAKE_API_VERSION 0 1 2 0

/-- `VK_API_VERSION_1_3`. -/
def VK_API_VERSION_1_3 : Nat := VK_MAKE_API_VERSION 0 1 3 0

/-- `VK_API_VERSION_1_4`. -/
def VK_API_VERSION_1_4 : Nat := VK_MAKE_API_VERSION 0 1 4 0

/-- `VK_API_VERSION_PATCH`. -/
def VK_API_VERSION_PATCH (v : Nat) : Nat := v &&& 0xFFF

/-- The scrutinee of the emitted `switch`:
`apiVersion ^ VK_API_VERSION_PATCH(apiVersion)` (patch bits cleared). -/
def stripPatchBits (v : Nat) : Nat := v ^^^ VK_API_VERSION_PATCH v

/-- Which `case` label of the emitted `switch` matches (4 for 1.4 down to 0
for 1.0); `none` when no label matches, in which case the whole `switch`
body — the version-gated visits *and* the trailing extension-wrapper
guards, which live inside the `switch` braces — is skipped. -/
def matchedTier (v : Nat) : Option Nat :=
  if v == VK_API_VERSION_1_4 then some 4
  else if v == VK_API_VERSION_1_3 then some 3
  else if v == VK_API_VERSION_1_2 then some 2
  else if v == VK_API_VERSION_1_1 then some 1
  else if v == VK_API_VERSION_1_0 then some 0
  else none

/-- `ret &= step(d)` for a fallthrough segment gated at tier `t`:
runs when the matched tier is at least `t` (cases fall through downward). -/
def tierStep {P C : Type} (matched t : Nat)
    (step : VkJsonDeviceSt P C → Bool × VkJsonDeviceSt P C)
    (d : VkJsonDeviceSt P C) : Bool × VkJsonDeviceSt P C :=
  if t ≤ matched then step d else (true, d)

/-- The version-gated body of the emitted `switch`: cases falling through
from the matched tier downward — `core14`; `core13`; `core11` and `core12`;
the 1.1 structure group chained with the external fence/semaphore maps; the
always-run 1.0 structure group chained with `queues`, `extensions`,
`layers`, `formats`; `ret` accumulates every segment's result with `&=`. -/
def deviceVersionSegments {P C : Type} (V : DeviceVisitor P C) (t : Nat)
    (d0 : VkJsonDeviceSt P C) : Bool × VkJsonDeviceSt P C :=
  let r1 := tierStep t 4 (visitMemberStep V "core14" "core14") d0
  let r2 := tierStep t 3 (visitMemberStep V "core13" "core13") r1.2
  let r3 := tierStep t 2 (visitMemberStep V "core11" "core11") r2.2
  let r4 := tierStep t 2 (visitMemberStep V "core12" "core12") r3.2
  let r5 := tierStep t 1 (chainSteps (versionVisits V "VK_VERSION_1_1" ++
    [visitMemberStep V "externalFenceProperties" "external_fence_properties",
     visitMemberStep V "externalSemaphoreProperties" "external_semaphore_properties"])) r4.2
  let r6 := chainSteps (versionVisits V "VK_VERSION_1_0" ++
    [visitMemberStep V "queues" "queues",
     visitMemberStep V "extensions" "extensions",
     visitMemberStep V "layers" "layers",
     visitMemberStep V "formats" "formats"]) r5.2
  (r1.1 && r2.1 && r3.1 && r4.1 && r5.1 && r6.1, r6.2)

/-- The emitted `Iterate(Visitor*, VkJsonDevice*)`: a `switch` on the
patch-stripped `apiVersion` running the fallthrough version segments from
the matched tier downward, followed — still inside the `switch` braces, so
skipped along with everything else when no case matches — by one
`reported`-guarded visit per extension wrapper, in table order. -/
def iterate_VkJsonDevice {P C : Type} (V : DeviceVisitor P C)
    (d0 : VkJsonDeviceSt P C) : Bool × VkJsonDeviceSt P C :=
  match matchedTier (stripPatchBits d0.apiVersion) with
  | none => (true, d0)
  | some t =>
    let rs := deviceVersionSegments V t d0
    let r7 := iterateExtensions V rs.2.exts
    (rs.1 && r7.1, { rs.2 with exts := r7.2 })

/-- The non-wrapper members of the generated `VkJsonDevice`, by member
variable name (the `VkPhysicalDeviceProperties` member is carried
separately as `apiVersion`/`propsRest`). -/
def deviceMemberVars : List String :=
  ["core14", "core13", "core11", "core12"] ++
  (((alookup "VK_VERSION_1_1" VULKAN_VERSIONS_AND_STRUCTS_MAPPING).getD []).map
    fun sm => get_struct_name sm.1) ++
  ["external_fence_properties", "external_semaphore_properties"] ++
  ((((alookup "VK_VERSION_1_0" VULKAN_VERSIONS_AND_STRUCTS_MAPPING).getD []).map
    fun sm => get_struct_name sm.1).filter fun n => n ≠ "properties") ++
  ["queues", "extensions", "layers", "formats"]

/-- The freshly constructed `VkJsonDevice()`: every struct member memset to
zero (`apiVersion = 0`), every extension wrapper default-constructed with
`reported = false`. -/
def defaultVkJsonDevice {P C : Type} (p0 : P) (c0 : C) : VkJsonDeviceSt P C :=
  { apiVersion := 0
    propsRest := p0
    members := deviceMemberVars.map fun n => (n, p0)
    exts := VULKAN_EXTENSIONS_AND_STRUCTS_MAPPING.map fun em =>
      { extName := em.1, reported := false, content := c0 } }

/-- `VkJsonDeviceFromJson` via `VkTypeFromJson` (lines 1407-1419,
1437-1441): the out-parameter is first reset with `*t = T()`; a parse (or
root-kind) failure returns `false` with the device still default;
otherwise the read visitor for the parsed document — here an arbitrary
`DeviceVisitor` — is run by `Iterate`. -/
def VkJsonDeviceFromJson {P C : Type} (V : DeviceVisitor P C) (parseOk : Bool)
    (p0 : P) (c0 : C) : Bool × VkJsonDeviceSt P C :=
  let d := defaultVkJsonDevice p0 c0
  if parseOk then iterate_VkJsonDevice V d else (false, d)

/-! ## Concrete checkers for the emission claims -/

/-- Does an emitted visitor call treat a declared field as the claim
describes: a `List[...]`-typed field as `VisitArray` keyed and targeted at
the field and sized by its mapped sibling, any other field as a uniform
`Visit` of the field? -/
def callMatchesField (f : SField) (c : VisitCall) : Bool :=
  if strLeads "List[" f.fty then
    match alookup f.fname LIST_TYPE_FIELD_AND_SIZE_MAPPING with
    | some sz => c == VisitCall.visitArray f.fname sz f.fname
    | none => false
  else c == VisitCall.visit f.fname f.fname

/-- Do the emitted calls pair off with the declared fields, in declaration
order, one call per field? -/
def callsMatchFields : List SField → List VisitCall → Bool
  | [], [] => true
  | f :: fs, c :: cs => callMatchesField f c && callsMatchFields fs cs
  | _, _ => false

/-- Find a structure definition by canonical name. -/
def findStructDef (n : String) : List StructDef → Option StructDef
  | [] => none
  | s :: rest => if s.sname == n then some s else findStructDef n rest

/-- Claim-C3 checker over the structure set: emission succeeds, every
structure of `ALL_STRUCTS` has exactly one emitted traversal, and every
emitted traversal visits exactly its structure's declared fields in
declaration order (list fields via `VisitArray` with the mapped size
sibling, all others via `Visit`). -/
def checkC3_structs : Bool :=
  match generate_struct_template ALL_STRUCTS with
  | none => false
  | some gen =>
    ALL_STRUCTS.all (fun s => (gen.filter (fun g => g.structName == s.sname)).length == 1) &&
    gen.all (fun g =>
      match findStructDef g.structName ALL_STRUCTS with
      | some s => callsMatchFields s.sfields g.calls
      | none => false)

/-- Claim-C3 checker over the wrappers: one traversal per extension and per
core version, each visiting one member per contributed structure, in table
order, every call the uniform `Visit` operation. -/
def checkC3_wrappers : Bool :=
  generate_extension_struct_template.length == VULKAN_EXTENSIONS_AND_STRUCTS_MAPPING.length &&
  (generate_extension_struct_template.zip VULKAN_EXTENSIONS_AND_STRUCTS_MAPPING).all (fun gw =>
    gw.1.tableKey == gw.2.1 &&
    gw.1.calls.length == gw.2.2.length &&
    (gw.1.calls.zip gw.2.2).all (fun cp =>
      match cp.1 with
      | VisitCall.visit _ t => t == get_struct_name cp.2.1
      | VisitCall.visitArray _ _ _ => false)) &&
  generate_core_template.length == VULKAN_CORES_AND_STRUCTS_MAPPING.length &&
  (generate_core_template.zip VULKAN_CORES_AND_STRUCTS_MAPPING).all (fun gw =>
    gw.1.tableKey == gw.2.1 &&
    gw.1.calls.length == gw.2.2.length &&
    (gw.1.calls.zip gw.2.2).all (fun cp =>
      match cp.1 with
      | VisitCall.visit _ t => t == core_member_name cp.2.1
      | VisitCall.visitArray _ _ _ => false))

/-- Claim-C4 checker over the extension wrappers: the constructor first sets
`reported = false` and then memsets exactly one member per contributed
structure, in table order; the members are `bool reported` followed by one
member per contributed structure. -/
def checkC4_ext : Bool :=
  generate_extension_struct_definition.length == VULKAN_EXTENSIONS_AND_STRUCTS_MAPPING.length &&
  (generate_extension_struct_definition.zip VULKAN_EXTENSIONS_AND_STRUCTS_MAPPING).all (fun wm =>
    wm.1.ctor.head? == some CtorStmt.setReportedFalse &&
    wm.1.members.head? == some (CMember.mk "bool" "reported") &&
    wm.1.ctor.length == wm.2.2.length + 1 &&
    wm.1.members.length == wm.2.2.length + 1 &&
    ((wm.1.ctor.drop 1).zip wm.2.2).all (fun cs =>
      cs.1 == CtorStmt.memsetZero (get_struct_name cs.2.1) cs.2.1) &&
    ((wm.1.members.drop 1).zip wm.2.2).all (fun ms =>
      ms.1 == CMember.mk ms.2.1 (get_struct_name ms.2.1)))

/-- Claim-C4 checker over the core-version wrappers: each wrapper has exactly
one `properties` member and one `features` member, every member is memset in
the constructor except the two `copy_src_layouts`/`copy_dst_layouts` vectors,
which exist exactly in the `Core14` wrapper and are memset by no constructor
statement. -/
def checkC4_core : Bool :=
  generate_vk_core_struct_definition.length == VULKAN_CORES_AND_STRUCTS_MAPPING.length &&
  (generate_vk_core_struct_definition.zip VULKAN_CORES_AND_STRUCTS_MAPPING).all (fun wm =>
    ((wm.1.members.filter (fun m => m.cvar == "properties")).length == 1) &&
    ((wm.1.members.filter (fun m => m.cvar == "features")).length == 1) &&
    (wm.1.members.all (fun m =>
      if m.cvar == "copy_src_layouts" || m.cvar == "copy_dst_layouts" then
        wm.2.1 == "Core14" &&
        m.cty == "std::vector<VkImageLayout>" &&
        (wm.1.ctor.all fun st =>
          match st with
          | CtorStmt.memsetZero v _ => !(v == m.cvar)
          | _ => true)
      else wm.1.ctor.contains (CtorStmt.memsetZero m.cvar m.cty))) &&
    (!(wm.2.1 == "Core14") ||
      (wm.1.members.contains (CMember.mk "std::vector<VkImageLayout>" "copy_src_layouts") &&
       wm.1.members.contains (CMember.mk "std::vector<VkImageLayout>" "copy_dst_layouts"))))

/-- No string occurs twice. -/
def listNodup : List String → Bool
  | [] => true
  | x :: xs => !(xs.contains x) && listNodup xs

/-- Claim-C8 checker: the emitted traversal names are pairwise distinct, at
least one canonical structure is reachable through several `ALL_STRUCTS`
entries (so the dedup test is not vacuous), and every such multiply-listed
structure has exactly one emitted traversal. -/
def checkC8 : Bool :=
  match generate_struct_template ALL_STRUCTS with
  | none => false
  | some gen =>
    listNodup (gen.map (fun g => g.structName)) &&
    ((ALL_STRUCTS.map (fun s => s.sname)).any
      (fun n => 2 ≤ (ALL_STRUCTS.map (fun s => s.sname)).count n)) &&
    ((ALL_STRUCTS.map (fun s => s.sname)).all
      (fun n => (ALL_STRUCTS.map (fun s => s.sname)).count n < 2 ||
        (gen.map (fun g => g.structName)).count n == 1))

/-- Claim-C9 checker: every `List[...]`-typed field of every structure of
`ALL_STRUCTS` has exactly one entry in `LIST_TYPE_FIELD_AND_SIZE_MAPPING`,
that entry names a sibling field of the same structure, and the visitor
emission over the current tables succeeds. -/
def checkC9 : Bool :=
  ALL_STRUCTS.all (fun s => s.sfields.all (fun f =>
    !(strLeads "List[" f.fty) ||
    (match alookup f.fname LIST_TYPE_FIELD_AND_SIZE_MAPPING with
     | some sz =>
       ((LIST_TYPE_FIELD_AND_SIZE_MAPPING.filter (fun kv => kv.1 == f.fname)).length == 1) &&
       s.sfields.any (fun g => g.fname == sz)
     | none => false))) &&
  (generate_struct_template ALL_STRUCTS).isSome

/-- Claim-C5 checker (idempotence): re-deriving from a derived name is a
fixed point, for every canonical dataclass name and every alias name. -/
def checkC5_idempotent : Bool :=
  (ALL_DATACLASS_NAMES ++ STRUCT_ALIASES.map (fun p => p.1)).all fun n =>
    get_struct_name (get_struct_name n) == get_struct_name n

/-! ## Claim theorems -/

/-- Claim C2 (code bug evidence): the emitted 8-bit-unsigned decode is NOT
strictly type-checked — `AsValue(Json::Value*, uint8_t*)` discards the
Boolean result of its inner `uint32_t` conversion, so a JSON value that is
not a number (or any value the `uint32_t` conversion rejects, such as a
negative number) decodes successfully to `0` instead of failing.  The other
parts of the claim do hold on the code, as the remaining conjuncts show:
`ReadValue` reports `"<key> missing."` for an absent key and
`"Wrong type for <key>."` for a present key of the wrong JSON kind, and the
`int32_t`/`uint32_t` conversions reject non-number values. -/
theorem C2_uint8_decode_not_strict :
    asValue_uint8 (JVal.jstring "not a number") = some 0 ∧
    asValue_uint8 JVal.jnull = some 0 ∧
    asValue_uint8 (JVal.jreal (-5)) = some 0 ∧
    asValue_uint8 (JVal.jreal 300) = none ∧
    asValue_uint32 (JVal.jstring "not a number") = none ∧
    asValue_int32 (JVal.jbool true) = none ∧
    ReadValue [("major", JVal.jreal 7)] "minor" asValue_uint8 =
      (none, some "minor missing.") ∧
    ReadValue [("width", JVal.jstring "seven")] "width" asValue_uint32 =
      (none, some "Wrong type for width.") ∧
    ReadValue [("width", JVal.jreal 7)] "width" asValue_uint32 = (some 7, none) := by
  refine ⟨by decide, by decide, by decide, by decide, by decide, by decide,
    by decide, by decide, by decide⟩

/-- Claim C4: every extension wrapper sets `reported = false` first in its
constructor and zero-initializes (memsets) one member per contributed
structure; every core-version wrapper bundles one `properties` and one
`features` member, each memset; only the `Core14` wrapper additionally
carries the two `std::vector<VkImageLayout>` members, and no constructor
statement memsets them. -/
theorem C4_wrapper_struct_definitions : checkC4_ext = true ∧ checkC4_core = true := by
  exact ⟨by decide, by decide⟩

/-- Claim C5 counterexample: `VkPhysicalDeviceShaderFloat16Int8FeaturesKHR`
is a registered alias of `VkPhysicalDeviceShaderFloat16Int8Features`, yet
the derivation applied to the alias name and to the canonical name yields
different member names (`shader_float16_int8_features_khr` versus
`shader_float16_int8_features`), refuting alias-stability as claimed. -/
theorem C5_counterexample :
    ("VkPhysicalDeviceShaderFloat16Int8FeaturesKHR",
      "VkPhysicalDeviceShaderFloat16Int8Features") ∈ STRUCT_ALIASES ∧
    get_struct_name "VkPhysicalDeviceShaderFloat16Int8FeaturesKHR" ≠
      get_struct_name "VkPhysicalDeviceShaderFloat16Int8Features" := by
  exact ⟨by decide, by decide⟩

/-- Claim C5 (amended): the field/member identifier derivation is idempotent
on every canonical dataclass name and every registered alias name; but it is
not alias-stable — for every registered alias, deriving from the alias name
differs from deriving from the canonical name. -/
theorem C5_idempotent_not_alias_stable :
    checkC5_idempotent = true ∧
    (STRUCT_ALIASES.all fun p => !(get_struct_name p.1 == get_struct_name p.2)) = true := by
  exact ⟨by decide, by decide⟩

/-- Claim C7: the derivation ends with a verbatim four-entry exact-match
correction table: the four listed names map to their listed replacements,
any other string passes through unchanged, and `get_struct_name` is exactly
the generic derivation followed by this lookup. -/
theorem C7_special_case_table :
    (special_cases "8_bit_storage_features_khr" = "bit8_storage_features_khr" ∧
     special_cases "memory_properties" = "memory" ∧
     special_cases "16_bit_storage_features" = "bit16_storage_features" ∧
     special_cases "i_d_properties" = "id_properties") ∧
    (∀ s : String, s ≠ "8_bit_storage_features_khr" → s ≠ "memory_properties" →
      s ≠ "16_bit_storage_features" → s ≠ "i_d_properties" → special_cases s = s) ∧
    (∀ s : String, get_struct_name s = special_cases (derive_variable_name s)) := by
  refine ⟨⟨rfl, rfl, rfl, rfl⟩, ?_, fun s => rfl⟩
  intro s h1 h2 h3 h4
  unfold special_cases
  rw [if_neg (by simpa using h1), if_neg (by simpa using h2),
    if_neg (by simpa using h3), if_neg (by simpa using h4)]

/-- Witness for claim C7: the pass-through case at a concrete name, and the
decomposition at a concrete structure name. -/
theorem C7_special_case_table_witness :
    special_cases "hello" = "hello" ∧
    get_struct_name "VkExtent3D" = special_cases (derive_variable_name "VkExtent3D") :=
  ⟨C7_special_case_table.2.1 "hello" (by decide) (by decide) (by decide) (by decide),
   C7_special_case_table.2.2 "VkExtent3D"⟩

/-- Claim C8: although `ALL_STRUCTS` reaches several canonical structures
through more than one alias entry, the generic visitor emission produces at
most one traversal per canonical structure — the emitted names are pairwise
distinct and every multiply-listed structure gets exactly one `Iterate`. -/
theorem C8_alias_dedup : checkC8 = true := by decide

/-! ## Claim C1: the 64-bit unsigned wire format -/

/-- A lower-case hexadecimal digit character. -/
def isLowerHexDigit (c : Char) : Bool :=
  (48 ≤ c.toNat && c.toNat ≤ 57) || (97 ≤ c.toNat && c.toNat ≤ 102)

theorem hexDigitChar_lower_hex {m : Nat} (h : m < 16) :
    isLowerHexDigit (hexDigitChar m) = true := by
  interval_cases m <;> decide

theorem hexDigitVal_hexDigitChar {m : Nat} (h : m < 16) :
    hexDigitVal (hexDigitChar m) = some m := by
  interval_cases m <;> decide

theorem toHexPad_length (k v : Nat) : (toHexPad k v).length = k := by
  induction k generalizing v with
  | zero => rfl
  | succ k ih => simp [toHexPad, ih]

theorem toHexPad_mem_lower_hex (k v : Nat) :
    ∀ c ∈ toHexPad k v, isLowerHexDigit c = true := by
  induction k generalizing v with
  | zero => intro c hc; cases hc
  | succ k ih =>
    intro c hc
    rw [toHexPad] at hc
    rcases List.mem_append.mp hc with hc | hc
    · exact ih _ c hc
    · rw [List.mem_singleton.mp hc]
      exact hexDigitChar_lower_hex (Nat.mod_lt _ (by norm_num))

/-- The numeric value accumulated from a run of hexadecimal digits, MSB
first, on top of an accumulator. -/
def hexListVal : List Char → Nat → Nat
  | [], acc => acc
  | c :: cs, acc => hexListVal cs (acc * 16 + (hexDigitVal c).getD 0)

theorem hexListVal_append (xs ys : List Char) (acc : Nat) :
    hexListVal (xs ++ ys) acc = hexListVal ys (hexListVal xs acc) := by
  induction xs generalizing acc with
  | nil => rfl
  | cons c cs ih => simp [hexListVal, ih]

theorem hexListVal_toHexPad (k v acc : Nat) :
    hexListVal (toHexPad k v) acc = acc * 16 ^ k + v % 16 ^ k := by
  induction k generalizing v acc with
  | zero => simp [toHexPad, hexListVal, Nat.mod_one]
  | succ k ih =>
    rw [toHexPad, hexListVal_append, ih]
    simp [hexListVal, hexDigitVal_hexDigitChar (Nat.mod_lt v (show 0 < 16 by norm_num))]
    have h1 : (16 : Nat) ^ (k + 1) = 16 * 16 ^ k := by ring
    have h2 : v % (16 * 16 ^ k) = v % 16 + 16 * (v / 16 % 16 ^ k) := Nat.mod_mul
    rw [h1, h2]
    ring

theorem lower_hex_not_space {c : Char} (h : isLowerHexDigit c = true) :
    cIsSpace c = false := by
  simp [isLowerHexDigit] at h
  simp [cIsSpace]
  omega

theorem lower_hex_isSome {c : Char} (h : isLowerHexDigit c = true) :
    (hexDigitVal c).isSome = true := by
  simp [isLowerHexDigit] at h
  simp only [hexDigitVal]
  rcases h with h | h
  · rw [if_pos (by simp; omega)]; rfl
  · rw [if_neg (by simp; omega), if_pos (by simp; omega)]; rfl

theorem lower_hex_toNat_ne {c : Char} (h : isLowerHexDigit c = true) (n : Nat)
    (hn : n < 48 ∨ (57 < n ∧ n < 97) ∨ 102 < n) : c.toNat ≠ n := by
  simp [isLowerHexDigit] at h
  omega

/-- `takeHexDigits` consumes an all-hex list entirely when the width allows. -/
theorem takeHexDigits_all (ds : List Char) :
    ∀ (w acc n : Nat), (∀ c ∈ ds, isLowerHexDigit c = true) → ds.length ≤ w →
    takeHexDigits w acc n ds = (hexListVal ds acc, n + ds.length) := by
  induction ds with
  | nil =>
    intro w acc n _ _
    cases w <;> simp [takeHexDigits, hexListVal]
  | cons c cs ih =>
    intro w acc n hhex hlen
    have hw : ∃ w', w = w' + 1 := by
      cases w with
      | zero => simp at hlen
      | succ w' => exact ⟨w', rfl⟩
    obtain ⟨w', rfl⟩ := hw
    have hc := lower_hex_isSome (hhex c (List.mem_cons_self c cs))
    obtain ⟨d, hd⟩ := Option.isSome_iff_exists.mp hc
    rw [takeHexDigits, hd]
    show takeHexDigits w' (acc * 16 + d) (n + 1) cs =
      (hexListVal (c :: cs) acc, n + (c :: cs).length)
    rw [ih w' (acc * 16 + d) (n + 1)
      (fun x hx => hhex x (List.mem_cons_of_mem c hx)) (by simpa using hlen)]
    simp [hexListVal, hd]
    omega

theorem scanSign_default (w : Nat) (c : Char) (cs : List Char)
    (h1 : c ≠ '-') (h2 : c ≠ '+') :
    scanSign w (c :: cs) = (false, c :: cs, w) := by
  rw [scanSign.eq_def]
  split
  · rename_i heq
    exact absurd (List.head_eq_of_cons_eq heq.symm).symm h1
  · rename_i heq
    exact absurd (List.head_eq_of_cons_eq heq.symm).symm h2
  · rfl

theorem scanHexMark_all_hex (w : Nat) (s : List Char)
    (hhex : ∀ x ∈ s, isLowerHexDigit x = true) :
    scanHexMark w s = (s, w) := by
  rw [scanHexMark.eq_def]
  split
  · rename_i a b tail
    have hx : isLowerHexDigit a = true := hhex a (by simp)
    have hnx : a ≠ 'x' := by
      intro e
      exact lower_hex_toNat_ne hx 120 (by omega) (by rw [e]; rfl)
    have hnX : a ≠ 'X' := by
      intro e
      exact lower_hex_toNat_ne hx 88 (by omega) (by rw [e]; rfl)
    rw [if_neg (by simp [hnx, hnX])]
  · rfl

theorem scanHexField_all_hex (c : Char) (cs : List Char)
    (hhex : ∀ x ∈ c :: cs, isLowerHexDigit x = true)
    (hlen : (c :: cs).length ≤ 16) :
    scanHexField 16 (c :: cs) = some (hexListVal (c :: cs) 0 % 2 ^ 64) := by
  have hc := hhex c (List.mem_cons_self c cs)
  have h45 : c ≠ '-' := by
    intro e; exact lower_hex_toNat_ne hc 45 (by omega) (by rw [e]; rfl)
  have h43 : c ≠ '+' := by
    intro e; exact lower_hex_toNat_ne hc 43 (by omega) (by rw [e]; rfl)
  unfold scanHexField
  rw [List.dropWhile_cons_of_neg (by simp [lower_hex_not_space hc]),
    scanSign_default 16 c cs h45 h43]
  simp only
  rw [scanHexMark_all_hex 16 (c :: cs) hhex]
  simp only
  rw [takeHexDigits_all (c :: cs) 16 0 0 hhex hlen]
  simp

theorem asValue_uint64_jstring (s : String) :
    asValue_uint64 (JVal.jstring s) =
      (match s.data with
       | c0 :: c1 :: rest => if c0 == '0' && c1 == 'x' then scanHexField 16 rest else none
       | _ => none) := rfl

theorem asValue_uint64_roundtrip (v : Nat) (hv : v < 2 ^ 64) :
    asValue_uint64 (u64ToJsonValue v) = some v := by
  have hpow : (16 : Nat) ^ 16 = 2 ^ 64 := by norm_num
  have hval : hexListVal (toHexPad 16 v) 0 = v := by
    rw [hexListVal_toHexPad]
    simp only [Nat.zero_mul, Nat.zero_add]
    rw [hpow]
    exact Nat.mod_eq_of_lt hv
  rw [show u64ToJsonValue v = JVal.jstring (String.mk ('0' :: 'x' :: toHexPad 16 v)) from rfl,
    asValue_uint64_jstring]
  show (if ('0' == '0' && 'x' == 'x') = true then scanHexField 16 (toHexPad 16 v) else none) =
    some v
  rw [if_pos (by decide)]
  cases hds : toHexPad 16 v with
  | nil =>
    have hl := toHexPad_length 16 v
    rw [hds] at hl
    simp at hl
  | cons c cs =>
    have hl := toHexPad_length 16 v
    rw [hds] at hl
    rw [scanHexField_all_hex c cs (hds ▸ toHexPad_mem_lower_hex 16 v) (by omega)]
    rw [← hds, hval, Nat.mod_eq_of_lt hv]

theorem asValue_uint64_no_mark {s : String} (h : strLeads "0x" s = false) :
    asValue_uint64 (JVal.jstring s) = none := by
  rw [asValue_uint64_jstring]
  rcases hd : s.data with _ | ⟨c0, _ | ⟨c1, rest⟩⟩
  · rfl
  · rfl
  · have hcond : (c0 == '0' && c1 == 'x') = false := by
      simp only [strLeads, lcLeads, hd, Bool.and_true] at h
      simp only [Bool.and_eq_false_iff] at h ⊢
      rcases h with h | h
      · left; simpa [BEq.comm] using h
      · right; simpa [BEq.comm] using h
    simp [hcond]

theorem asValue_uint64_non_string (j : JVal) (h : ∀ s : String, j ≠ JVal.jstring s) :
    asValue_uint64 j = none := by
  cases j <;> first | rfl | exact absurd rfl (h _)

/-- Claim C1 counterexample: decoding does NOT require the exact 18-character
format.  `sscanf` with `"0x%016" PRIx64` treats `016` as a maximum field
width, so the 4-character string `"0xff"` decodes successfully to 255, and
upper-case digits are accepted: `"0xFF"` also decodes to 255 even though `F`
is not a lower-case hex digit. -/
theorem C1_counterexample :
    asValue_uint64 (JVal.jstring "0xff") = some 255 ∧
    "0xff".length ≠ 18 ∧
    asValue_uint64 (JVal.jstring "0xFF") = some 255 ∧
    isLowerHexDigit 'F' = false := by
  refine ⟨by decide, by decide, by decide, by decide⟩

/-- Claim C1 (amended): encoding a 64-bit unsigned value always yields a JSON
string of exactly 18 characters, the literal `0x` followed by 16 zero-padded
lower-case hex digits, and decoding that string returns the exact original
value (including 0 and the maximum).  Decoding fails for any JSON value that
is not a string and for any string that does not start with the literal
`0x`; but (as the counterexample shows) it is NOT an exact-format match —
any `0x`-prefixed string whose remainder `sscanf` can convert as a
hexadecimal number is accepted. -/
theorem C1_uint64_encode_decode :
    (∀ v : Nat, v < 2 ^ 64 →
      u64ToJsonValue v = JVal.jstring (String.mk ('0' :: 'x' :: toHexPad 16 v)) ∧
      ('0' :: 'x' :: toHexPad 16 v).length = 18 ∧
      (∀ c ∈ toHexPad 16 v, isLowerHexDigit c = true) ∧
      asValue_uint64 (u64ToJsonValue v) = some v) ∧
    (∀ s : String, strLeads "0x" s = false → asValue_uint64 (JVal.jstring s) = none) ∧
    (∀ j : JVal, (∀ s : String, j ≠ JVal.jstring s) → asValue_uint64 j = none) := by
  refine ⟨fun v hv => ⟨rfl, by simp [toHexPad_length], toHexPad_mem_lower_hex 16 v,
    asValue_uint64_roundtrip v hv⟩,
    fun s h => asValue_uint64_no_mark h,
    fun j h => asValue_uint64_non_string j h⟩

/-- Witness for claim C1: the amended theorem applied at 0, at the largest
64-bit value, at a prefix-less string, and at a non-string JSON value. -/
theorem C1_uint64_encode_decode_witness :
    asValue_uint64 (u64ToJsonValue 0) = some 0 ∧
    asValue_uint64 (u64ToJsonValue (2 ^ 64 - 1)) = some (2 ^ 64 - 1) ∧
    asValue_uint64 (JVal.jstring "ff") = none ∧
    asValue_uint64 (JVal.jreal 7) = none :=
  ⟨(C1_uint64_encode_decode.1 0 (by norm_num)).2.2.2,
   (C1_uint64_encode_decode.1 (2 ^ 64 - 1) (by norm_num)).2.2.2,
   C1_uint64_encode_decode.2.1 "ff" (by decide),
   C1_uint64_encode_decode.2.2 (JVal.jreal 7) (fun s h => JVal.noConfusion h)⟩

/-! ## Claim C10: device decoding never populates extension wrappers -/

theorem visitMemberStep_exts {P C : Type} (V : DeviceVisitor P C) (key mvar : String)
    (d : VkJsonDeviceSt P C) : ((visitMemberStep V key mvar d).2).exts = d.exts := by
  unfold visitMemberStep
  cases alookup mvar d.members <;> rfl

theorem versionStructStep_exts {P C : Type} (V : DeviceVisitor P C) (structName : String)
    (d : VkJsonDeviceSt P C) : ((versionStructStep V structName d).2).exts = d.exts := by
  unfold versionStructStep
  split
  · rfl
  · exact visitMemberStep_exts V _ _ d

theorem tierStep_exts {P C : Type} (matched t : Nat)
    (step : VkJsonDeviceSt P C → Bool × VkJsonDeviceSt P C)
    (hstep : ∀ d, ((step d).2).exts = d.exts) (d : VkJsonDeviceSt P C) :
    ((tierStep matched t step d).2).exts = d.exts := by
  unfold tierStep
  split
  · exact hstep d
  · rfl

theorem chainSteps_exts {P C : Type}
    (steps : List (VkJsonDeviceSt P C → Bool × VkJsonDeviceSt P C))
    (h : ∀ s ∈ steps, ∀ d, ((s d).2).exts = d.exts) :
    ∀ d, ((chainSteps steps d).2).exts = d.exts := by
  induction steps with
  | nil => intro d; rfl
  | cons s rest ih =>
    intro d
    simp only [chainSteps]
    split
    · calc ((chainSteps rest (s d).2).2).exts
          = ((s d).2).exts := ih (fun x hx => h x (List.mem_cons_of_mem s hx)) (s d).2
        _ = d.exts := h s (List.mem_cons_self s rest) d
    · exact h s (List.mem_cons_self s rest) d

theorem versionVisits_exts {P C : Type} (V : DeviceVisitor P C) (ver : String) :
    ∀ s ∈ versionVisits V ver, ∀ d : VkJsonDeviceSt P C, ((s d).2).exts = d.exts := by
  intro s hs d
  obtain ⟨sm, _, rfl⟩ := List.mem_map.mp hs
  exact versionStructStep_exts V sm.1 d

theorem deviceVersionSegments_exts {P C : Type} (V : DeviceVisitor P C) (t : Nat)
    (d : VkJsonDeviceSt P C) : ((deviceVersionSegments V t d).2).exts = d.exts := by
  unfold deviceVersionSegments
  simp only
  rw [chainSteps_exts _ ?h0, tierStep_exts _ _ _ ?h1, tierStep_exts _ _ _ ?h2,
    tierStep_exts _ _ _ ?h3, tierStep_exts _ _ _ ?h4, tierStep_exts _ _ _ ?h5]
  case h0 =>
    intro s hs
    rcases List.mem_append.mp hs with hs | hs
    · exact versionVisits_exts V _ s hs
    · simp only [List.mem_cons, List.not_mem_nil, or_false] at hs
      rcases hs with rfl | rfl | rfl | rfl <;>
        exact fun d => visitMemberStep_exts V _ _ d
  case h1 =>
    intro d
    apply chainSteps_exts
    intro s hs
    rcases List.mem_append.mp hs with hs | hs
    · exact versionVisits_exts V _ s hs
    · simp only [List.mem_cons, List.not_mem_nil, or_false] at hs
      rcases hs with rfl | rfl <;> exact fun d => visitMemberStep_exts V _ _ d
  case h2 => exact visitMemberStep_exts V _ _
  case h3 => exact visitMemberStep_exts V _ _
  case h4 => exact visitMemberStep_exts V _ _
  case h5 => exact visitMemberStep_exts V _ _

theorem iterateExtensions_all_false {P C : Type} (V : DeviceVisitor P C) :
    ∀ es : List (ExtEntry C), (∀ e ∈ es, e.reported = false) →
      (iterateExtensions V es).2 = es := by
  intro es
  induction es with
  | nil => intro _; rfl
  | cons e rest ih =>
    intro h
    have he : e.reported = false := h e (List.mem_cons_self e rest)
    simp only [iterateExtensions, he]
    rw [ih (fun x hx => h x (List.mem_cons_of_mem e hx))]
    simp

theorem iterate_VkJsonDevice_exts {P C : Type} (V : DeviceVisitor P C)
    (d : VkJsonDeviceSt P C) (h : ∀ e ∈ d.exts, e.reported = false) :
    ((iterate_VkJsonDevice V d).2).exts = d.exts := by
  unfold iterate_VkJsonDevice
  cases matchedTier (stripPatchBits d.apiVersion) with
  | none => rfl
  | some t =>
    simp only
    show (iterateExtensions V ((deviceVersionSegments V t d).2).exts).2 = d.exts
    rw [deviceVersionSegments_exts V t d]
    exact iterateExtensions_all_false V d.exts h

theorem fromJson_device_default {P C : Type} (V : DeviceVisitor P C) (parseOk : Bool)
    (p0 : P) (c0 : C) :
    (VkJsonDeviceFromJson V parseOk p0 c0).2 = defaultVkJsonDevice p0 c0 := by
  cases parseOk with
  | false => rfl
  | true =>
    show (iterate_VkJsonDevice V (defaultVkJsonDevice p0 c0)).2 = defaultVkJsonDevice p0 c0
    unfold iterate_VkJsonDevice
    have h : matchedTier (stripPatchBits (defaultVkJsonDevice p0 c0).apiVersion) = none := by
      show matchedTier (stripPatchBits 0) = none
      decide
    rw [h]

theorem default_exts_not_reported {P C : Type} (p0 : P) (c0 : C) :
    ∀ e ∈ (defaultVkJsonDevice p0 c0).exts, e.reported = false := by
  intro e he
  simp only [defaultVkJsonDevice] at he
  obtain ⟨em, _, rfl⟩ := List.mem_map.mp he
  rfl

/-- Claim C10: device-level decoding can never populate an extension
wrapper.  The decode entry point first resets the out-parameter to a
default-constructed `VkJsonDevice` (extension flags all `false`,
`apiVersion` zero); on that state the emitted traversal's `switch` matches
no case (zero is no API-version constant), so for every input document the
decoded device — in particular every extension wrapper — is exactly the
default (first conjunct); independently, whenever every in-memory
`reported` flag is `false`, the traversal leaves every extension wrapper
untouched, because each wrapper's visit is guarded by its own current flag
(second conjunct); hence an encode-then-decode round trip loses all
extension-gated data: the decoded wrappers can never equal those of a
device with any wrapper reported (third conjunct). -/
theorem C10_device_decode_ignores_extensions :
    (∀ (P C : Type) (V : DeviceVisitor P C) (parseOk : Bool) (p0 : P) (c0 : C),
      (VkJsonDeviceFromJson V parseOk p0 c0).2 = defaultVkJsonDevice p0 c0) ∧
    (∀ (P C : Type) (V : DeviceVisitor P C) (d : VkJsonDeviceSt P C),
      (∀ e ∈ d.exts, e.reported = false) →
      ((iterate_VkJsonDevice V d).2).exts = d.exts) ∧
    (∀ (P C : Type) (V : DeviceVisitor P C) (parseOk : Bool) (p0 : P) (c0 : C)
      (dev : VkJsonDeviceSt P C), (∃ e ∈ dev.exts, e.reported = true) →
      ((VkJsonDeviceFromJson V parseOk p0 c0).2).exts ≠ dev.exts) := by
  refine ⟨fun P C V parseOk p0 c0 => fromJson_device_default V parseOk p0 c0,
    fun P C V d h => iterate_VkJsonDevice_exts V d h,
    fun P C V parseOk p0 c0 dev hex heq => ?_⟩
  obtain ⟨e, he, hrep⟩ := hex
  rw [fromJson_device_default V parseOk p0 c0] at heq
  have hmem : e ∈ (defaultVkJsonDevice p0 c0).exts := heq ▸ he
  have := default_exts_not_reported p0 c0 e hmem
  rw [hrep] at this
  exact Bool.noConfusion this

/-- A visitor that accepts everything and writes nothing. -/
def unitDeviceVisitor : DeviceVisitor Unit Unit :=
  DeviceVisitor.mk (fun _ x => (true, x)) (fun _ x => (true, x)) (fun _ x => (true, x))

/-- Witness for claim C10 at concrete inputs: the trivial visitor over unit
payloads, the default device, and a device with one reported wrapper. -/
theorem C10_device_decode_ignores_extensions_witness :
    (VkJsonDeviceFromJson unitDeviceVisitor true () ()).2 = defaultVkJsonDevice () () ∧
    ((iterate_VkJsonDevice unitDeviceVisitor (defaultVkJsonDevice () ())).2).exts =
      (defaultVkJsonDevice () ()).exts ∧
    ((VkJsonDeviceFromJson unitDeviceVisitor true () ()).2).exts ≠
      (VkJsonDeviceSt.mk 0 () [] [ExtEntry.mk "VK_TEST_extension" true ()]).exts :=
  ⟨C10_device_decode_ignores_extensions.1 Unit Unit unitDeviceVisitor true () (),
   C10_device_decode_ignores_extensions.2.1 Unit Unit unitDeviceVisitor
     (defaultVkJsonDevice () ()) (by decide),
   C10_device_decode_ignores_extensions.2.2 Unit Unit unitDeviceVisitor true () ()
     (VkJsonDeviceSt.mk 0 () [] [ExtEntry.mk "VK_TEST_extension" true ()])
     ⟨ExtEntry.mk "VK_TEST_extension" true (), by decide, rfl⟩⟩

/-! ## Claim C3: the generic traversal emission -/

/-- A failing call at index `k` of an emitted `&&`-chain, with every earlier
call succeeding, makes the chain evaluate to `false` and stops evaluation at
exactly the first `k + 1` calls. -/
theorem evalAndChain_short_circuit (f : VisitCall → Bool) :
    ∀ (calls : List VisitCall) (k : Nat) (hk : k < calls.length),
      (∀ i (hi : i < k), f (calls.get ⟨i, Nat.lt_trans hi hk⟩) = true) →
      f (calls.get ⟨k, hk⟩) = false →
      evalAndChain f calls = false ∧ visitedCalls f calls = calls.take (k + 1) := by
  intro calls
  induction calls with
  | nil => intro k hk; exact absurd hk (Nat.not_lt_zero k)
  | cons c cs ih =>
    intro k hk hbefore hfail
    cases k with
    | zero =>
      have hc : f c = false := hfail
      refine ⟨by simp [evalAndChain, hc], by simp [visitedCalls, hc]⟩
    | succ k =>
      have hc : f c = true := hbefore 0 (Nat.succ_pos k)
      have hk' : k < cs.length := Nat.lt_of_succ_lt_succ hk
      have ihres := ih k hk'
        (fun i hi => hbefore (i + 1) (Nat.succ_lt_succ hi)) hfail
      refine ⟨by simp [evalAndChain, hc, ihres.1], ?_⟩
      simp [visitedCalls, hc, ihres.2, List.take]

/-- Claim C3 counterexample: the emitted wrapper traversals do not visit
every declared member of their wrapper definitions.  The `Core14` wrapper
definition declares the variable-length member `copy_src_layouts`, yet its
emitted `Iterate` consists of exactly the two calls visiting `properties`
and `features`; likewise every extension wrapper declares the member
`bool reported` which its traversal never visits. -/
theorem C3_counterexample :
    generate_vk_core_struct_definition.get? 3 = some (WrapperDef.mk "VkJsonCore14" "core14"
      [CtorStmt.memsetZero "properties" "VkPhysicalDeviceVulkan14Properties",
       CtorStmt.memsetZero "features" "VkPhysicalDeviceVulkan14Features"]
      [CMember.mk "VkPhysicalDeviceVulkan14Properties" "properties",
       CMember.mk "VkPhysicalDeviceVulkan14Features" "features",
       CMember.mk "std::vector<VkImageLayout>" "copy_src_layouts",
       CMember.mk "std::vector<VkImageLayout>" "copy_dst_layouts"]) ∧
    generate_core_template.get? 3 = some (GenWrapperIterate.mk "Core14" "VkJsonCore14"
      [VisitCall.visit "properties" "properties",
       VisitCall.visit "features" "features"]) ∧
    generate_extension_struct_definition.get? 0 = some (WrapperDef.mk
      "VkJsonKHRVariablePointers" "khr_variable_pointers"
      [CtorStmt.setReportedFalse,
       CtorStmt.memsetZero "variable_pointer_features_khr"
         "VkPhysicalDeviceVariablePointerFeaturesKHR",
       CtorStmt.memsetZero "variable_pointers_features_khr"
         "VkPhysicalDeviceVariablePointersFeaturesKHR"]
      [CMember.mk "bool" "reported",
       CMember.mk "VkPhysicalDeviceVariablePointerFeaturesKHR"
         "variable_pointer_features_khr",
       CMember.mk "VkPhysicalDeviceVariablePointersFeaturesKHR"
         "variable_pointers_features_khr"]) ∧
    generate_extension_struct_template.get? 0 = some (GenWrapperIterate.mk
      "VK_KHR_variable_pointers" "VkJsonKHRVariablePointers"
      [VisitCall.visit "variablePointerFeaturesKHR" "variable_pointer_features_khr",
       VisitCall.visit "variablePointersFeaturesKHR" "variable_pointers_features_khr"]) := by
  refine ⟨by decide, by decide, by decide, by decide⟩

/-- Claim C3 (amended): for every structure of the All-Structures Set the
generator emits exactly one traversal whose visitor calls are the
structure's declared fields in declaration order — `List[...]`-typed fields
through `VisitArray` parameterized by the sibling size field from
`LIST_TYPE_FIELD_AND_SIZE_MAPPING`, every other field through the uniform
`Visit` — and for every extension and core-version wrapper one traversal
with one uniform `Visit` per contributed capability structure in table
order (the wrapper-level bookkeeping members — the `reported` flag and
`Core14`'s two layout vectors — are not visited; see the counterexample);
the calls are combined by left-to-right `&&`, so a failure at call `k`
prevents evaluation of every call after `k`. -/
theorem C3_generic_traversal_emission :
    checkC3_structs = true ∧ checkC3_wrappers = true ∧
    (∀ (f : VisitCall → Bool) (calls : List VisitCall) (k : Nat) (hk : k < calls.length),
      (∀ i (hi : i < k), f (calls.get ⟨i, Nat.lt_trans hi hk⟩) = true) →
      f (calls.get ⟨k, hk⟩) = false →
      evalAndChain f calls = false ∧ visitedCalls f calls = calls.take (k + 1)) :=
  ⟨by decide, by decide, fun f calls => evalAndChain_short_circuit f calls⟩

/-- Witness for claim C3: the short-circuit clause applied to a concrete
two-call chain whose first call fails. -/
theorem C3_generic_traversal_emission_witness :
    evalAndChain (fun _ => false)
      [VisitCall.visit "a" "a", VisitCall.visit "b" "b"] = false ∧
    visitedCalls (fun _ => false)
      [VisitCall.visit "a" "a", VisitCall.visit "b" "b"] = [VisitCall.visit "a" "a"] := by
  have h := C3_generic_traversal_emission.2.2 (fun _ => false)
    [VisitCall.visit "a" "a", VisitCall.visit "b" "b"] 0 (by decide)
    (fun i hi => absurd hi (Nat.not_lt_zero i)) rfl
  exact ⟨h.1, by rw [h.2]; rfl⟩

/-! ## Claim C9: the list-field size mapping -/

/-- A field whose `List[...]` type has no size-mapping entry makes
`template_calls` fail (the Python `KeyError`). -/
theorem template_calls_none_of_missing (fs : List SField) (f : SField)
    (hf : f ∈ fs) (hlist : strLeads "List[" f.fty = true)
    (hmap : alookup f.fname LIST_TYPE_FIELD_AND_SIZE_MAPPING = none) :
    template_calls fs = none := by
  induction fs with
  | nil => cases hf
  | cons g gs ih =>
    rcases List.mem_cons.mp hf with rfl | hf'
    · rw [template_calls, if_pos hlist, hmap]
    · have hrec := ih hf'
      rw [template_calls]
      by_cases hg : strLeads "List[" g.fty = true
      · rw [if_pos hg]
        cases halo : alookup g.fname LIST_TYPE_FIELD_AND_SIZE_MAPPING with
        | none => rfl
        | some sz => rw [hrec]
      · rw [if_neg hg, hrec]

/-- If the first occurrence of a pattern-matching structure in the input
list has a `List[...]` field absent from the size mapping, the whole
emission fails. -/
theorem generate_struct_template_loop_none (post : List StructDef) :
    ∀ (pre : List StructDef) (processed : List String) (s : StructDef) (sv : String),
      s.sname ∉ processed → s.sname ∉ pre.map StructDef.sname →
      struct_var_for s.sname = some sv →
      template_calls s.sfields = none →
      generate_struct_template_loop processed (pre ++ s :: post) = none := by
  intro pre
  induction pre with
  | nil =>
    intro processed s sv hproc hpre hvar hcalls
    rw [List.nil_append, generate_struct_template_loop,
      if_neg (by simpa using hproc), hvar, hcalls]
  | cons p ps ih =>
    intro processed s sv hproc hpre hvar hcalls
    have hps : s.sname ∉ ps.map StructDef.sname := fun m => hpre (by simp [m])
    have hpne : s.sname ≠ p.sname := fun e => hpre (by simp [e])
    rw [List.cons_append, generate_struct_template_loop]
    by_cases hcont : (processed.contains p.sname) = true
    · rw [if_pos hcont]
      exact ih processed s sv hproc hps hvar hcalls
    · rw [if_neg hcont]
      cases hv : struct_var_for p.sname with
      | none =>
        exact ih (p.sname :: processed) s sv
          (by simp [hproc, hpne]) hps hvar hcalls
      | some pv =>
        cases hc : template_calls p.sfields with
        | none => rfl
        | some cs' =>
          rw [ih (p.sname :: processed) s sv (by simp [hproc, hpne]) hps hvar hcalls]

/-- Claim C9: every `List[...]`-typed field of every structure of
`ALL_STRUCTS` has exactly one entry in `LIST_TYPE_FIELD_AND_SIZE_MAPPING`,
the entry names a sibling field of the same structure, and the emission over
the current tables succeeds; conversely, a pattern-matching structure whose
`List[...]` field is absent from the mapping (at its first occurrence in the
input) makes the whole emission fail — the unrecovered lookup failure. -/
theorem C9_list_size_mapping :
    checkC9 = true ∧
    (∀ (pre post : List StructDef) (s : StructDef) (sv : String) (f : SField),
      s.sname ∉ pre.map StructDef.sname →
      struct_var_for s.sname = some sv →
      f ∈ s.sfields → strLeads "List[" f.fty = true →
      alookup f.fname LIST_TYPE_FIELD_AND_SIZE_MAPPING = none →
      generate_struct_template (pre ++ s :: post) = none) := by
  refine ⟨by decide, fun pre post s sv f hpre hvar hf hlist hmap => ?_⟩
  exact generate_struct_template_loop_none post pre [] s sv (by simp) hpre hvar
    (template_calls_none_of_missing s.sfields f hf hlist hmap)

/-- Witness for claim C9: a synthetic one-structure table whose single
`List[...]` field has no size-mapping entry makes emission fail. -/
theorem C9_list_size_mapping_witness :
    generate_struct_template
      [StructDef.mk "OrphanProperties" [SField.mk "things" "List[Foo]"]] = none := by
  have h := C9_list_size_mapping.2 [] []
    (StructDef.mk "OrphanProperties" [SField.mk "things" "List[Foo]"]) "properties"
    (SField.mk "things" "List[Foo]") (by simp) (by decide) (by simp) (by decide) (by decide)
  simpa using h

/-! ## Claim C6: wrapper type and instance names -/

theorem camelAny_cons_of_ne {c : Char} (h : c ≠ '_') (rest : List Char) :
    camelAny (c :: rest) = c :: camelAny rest := by
  rw [camelAny.eq_def]
  exact if_neg (by simpa using h)

theorem camelAny_append_no_underscore (p : List Char) (h : '_' ∉ p) (s : List Char) :
    camelAny (p ++ s) = p ++ camelAny s := by
  induction p with
  | nil => rfl
  | cons c cs ih =>
    have hc : c ≠ '_' := fun e => h (by simp [e])
    have hcs : '_' ∉ cs := fun m => h (List.mem_cons_of_mem c m)
    rw [List.cons_append, camelAny_cons_of_ne hc, ih hcs, List.cons_append]

theorem camelAny_mk_append (p t : String) (hp : '_' ∉ p.data) :
    String.mk (camelAny (p ++ t).data) = p ++ String.mk (camelAny t.data) := by
  show String.mk (camelAny (p.data ++ t.data)) = String.mk (p.data ++ camelAny t.data)
  rw [camelAny_append_no_underscore p.data hp t.data]

/-- Claim C6 counterexample: for a known-prefix extension identifier the
derived wrapper instance name keeps the remainder verbatim — it is NOT
lower-cased as the claim states.  `VK_KHR_A` derives `khr_A`, not
`khr_` + lower-cased remainder (`khr_a`). -/
theorem C6_counterexample :
    get_vkjson_struct_variable_name "VK_KHR_A" = "khr_A" ∧
    get_vkjson_struct_variable_name "VK_KHR_A" ≠ "khr_" ++ lowerStr "A" := by
  refine ⟨by decide, by decide⟩

/-- Claim C6 (amended): the wrapper type name of an identifier in a known
prefix family is the family's fixed replacement (`VkJsonKHR`/`VkJsonExt`/
`VkJsonIMG`) concatenated with the camel-cased remainder, and of an
unrecognized identifier `VkJsonExt` concatenated with the camel-cased whole
identifier; the wrapper instance name of a known-prefix identifier is the
family's lowercase tag (`khr_`/`ext_`/`img_`) concatenated with the
remainder kept verbatim (NOT lower-cased — lower-casing happens only in the
unrecognized-prefix fallback, which lower-cases the whole identifier). -/
theorem C6_wrapper_name_derivation :
    (∀ e : String, strLeads "VK_KHR" e = true →
      get_vkjson_struct_name e = "VkJsonKHR" ++ String.mk (camelAny (strDrop 6 e).data)) ∧
    (∀ e : String, strLeads "VK_KHR" e = false → strLeads "VK_EXT" e = true →
      get_vkjson_struct_name e = "VkJsonExt" ++ String.mk (camelAny (strDrop 6 e).data)) ∧
    (∀ e : String, strLeads "VK_KHR" e = false → strLeads "VK_EXT" e = false →
      strLeads "VK_IMG" e = true →
      get_vkjson_struct_name e = "VkJsonIMG" ++ String.mk (camelAny (strDrop 6 e).data)) ∧
    (∀ e : String, strLeads "VK_KHR" e = false → strLeads "VK_EXT" e = false →
      strLeads "VK_IMG" e = false →
      get_vkjson_struct_name e = "VkJsonExt" ++ String.mk (camelAny e.data)) ∧
    (∀ e : String, strLeads "VK_KHR_" e = true →
      get_vkjson_struct_variable_name e = "khr_" ++ strDrop 7 e) ∧
    (∀ e : String, strLeads "VK_KHR_" e = false → strLeads "VK_EXT_" e = true →
      get_vkjson_struct_variable_name e = "ext_" ++ strDrop 7 e) ∧
    (∀ e : String, strLeads "VK_KHR_" e = false → strLeads "VK_EXT_" e = false →
      strLeads "VK_IMG_" e = true →
      get_vkjson_struct_variable_name e = "img_" ++ strDrop 7 e) ∧
    (∀ e : String, strLeads "VK_KHR_" e = false → strLeads "VK_EXT_" e = false →
      strLeads "VK_IMG_" e = false →
      get_vkjson_struct_variable_name e = lowerStr e) := by
  refine ⟨?_, ?_, ?_, ?_, ?_, ?_, ?_, ?_⟩
  · intro e h1
    unfold get_vkjson_struct_name
    rw [if_pos h1]
    exact camelAny_mk_append "VkJsonKHR" (strDrop 6 e) (by decide)
  · intro e h1 h2
    unfold get_vkjson_struct_name
    rw [if_neg (by simp [h1]), if_pos h2]
    exact camelAny_mk_append "VkJsonExt" (strDrop 6 e) (by decide)
  · intro e h1 h2 h3
    unfold get_vkjson_struct_name
    rw [if_neg (by simp [h1]), if_neg (by simp [h2]), if_pos h3]
    exact camelAny_mk_append "VkJsonIMG" (strDrop 6 e) (by decide)
  · intro e h1 h2 h3
    unfold get_vkjson_struct_name
    rw [if_neg (by simp [h1]), if_neg (by simp [h2]), if_neg (by simp [h3])]
    exact camelAny_mk_append "VkJsonExt" e (by decide)
  · intro e h1
    unfold get_vkjson_struct_variable_name
    rw [if_pos h1]
  · intro e h1 h2
    unfold get_vkjson_struct_variable_name
    rw [if_neg (by simp [h1]), if_pos h2]
  · intro e h1 h2 h3
    unfold get_vkjson_struct_variable_name
    rw [if_neg (by simp [h1]), if_neg (by simp [h2]), if_pos h3]
  · intro e h1 h2 h3
    unfold get_vkjson_struct_variable_name
    rw [if_neg (by simp [h1]), if_neg (by simp [h2]), if_neg (by simp [h3])]

/-- Witness for claim C6: the amended theorem at concrete identifiers of
each prefix family and of the fallback. -/
theorem C6_wrapper_name_derivation_witness :
    get_vkjson_struct_name "VK_KHR_shader_float16_int8" =
      "VkJsonKHR" ++ String.mk (camelAny (strDrop 6 "VK_KHR_shader_float16_int8").data) ∧
    get_vkjson_struct_name "weird_name" =
      "VkJsonExt" ++ String.mk (camelAny ("weird_name" : String).data) ∧
    get_vkjson_struct_variable_name "VK_IMG_relaxed_line_rasterization" =
      "img_" ++ strDrop 7 "VK_IMG_relaxed_line_rasterization" ∧
    get_vkjson_struct_variable_name "weird_NAME" = lowerStr "weird_NAME" :=
  ⟨C6_wrapper_name_derivation.1 "VK_KHR_shader_float16_int8" (by decide),
   C6_wrapper_name_derivation.2.2.2.1 "weird_name" (by decide) (by decide) (by decide),
   C6_wrapper_name_derivation.2.2.2.2.2.2.1 "VK_IMG_relaxed_line_rasterization"
     (by decide) (by decide) (by decide),
   C6_wrapper_name_derivation.2.2.2.2.2.2.2 "weird_NAME" (by decide) (by decide) (by decide)⟩

end Vkjson
